import Mathlib

/-!
# D6Joint and HingeJoint

A shallow embedding of `Source/Engine/Physics/Joints/D6Joint.cpp` and
`Source/Engine/Physics/Joints/HingeJoint.cpp`.

* A `float` is its IEEE-754 binary32 bit pattern; `==`, `!=`, `>` and `>=` are the IEEE
  comparisons on it (a NaN compares unequal to everything, `+0 == -0`).
* The native PhysX joint is a recording stub: every call made on it is appended to `calls`,
  and it keeps the drive target and the telemetry values that the getters read back.
* A JSON object is the list of its members in document order.
-/

namespace Flax

/-! ## float -/

/-- A C++ `float`, as its 32-bit IEEE-754 pattern: bit 31 is the sign, bits 30..23 the exponent,
bits 22..0 the fraction. Only `bits % 2^32` is meaningful. -/
structure F32 where
  bits : Nat
deriving DecidableEq, Repr

namespace F32

/-- Exponent and fraction (the low 31 bits). -/
def mag (x : F32) : Nat := x.bits % 2147483648

/-- Sign bit. -/
def sign (x : F32) : Bool := x.bits / 2147483648 % 2 == 1

/-- NaN: exponent all ones and a non-zero fraction, i.e. magnitude above `0x7F800000`. -/
def isNaN (x : F32) : Bool := decide (0x7F800000 < x.mag)

/-- Position of a non-NaN value on the number line: IEEE magnitudes are ordered like their bit
patterns, the sign bit negates, and both zeros are sent to 0. -/
def ord (x : F32) : Int := if x.sign then -(x.mag : Int) else (x.mag : Int)

/-- C++ `a == b` on floats. -/
def eq (a b : F32) : Bool := !a.isNaN && !b.isNaN && decide (a.ord = b.ord)

/-- C++ `a != b` on floats. -/
def ne (a b : F32) : Bool := !(eq a b)

/-- C++ `a > b` on floats. -/
def gt (a b : F32) : Bool := !a.isNaN && !b.isNaN && decide (b.ord < a.ord)

/-- C++ `a < b` on floats. -/
def lt (a b : F32) : Bool := gt b a

/-- C++ `a >= b` on floats. -/
def ge (a b : F32) : Bool := !a.isNaN && !b.isNaN && decide (b.ord ≤ a.ord)

/-- Literal `0.0f`. -/
def zero : F32 := ⟨0x00000000⟩
/-- Literal `-0.0f`. -/
def negZero : F32 := ⟨0x80000000⟩
/-- Literal `1.0f`. -/
def one : F32 := ⟨0x3F800000⟩
/-- Literal `0.01f`. -/
def c0_01 : F32 := ⟨0x3C23D70A⟩
/-- Literal `100.0f`. -/
def c100 : F32 := ⟨0x42C80000⟩
/-- Literal `90.0f`. -/
def c90 : F32 := ⟨0x42B40000⟩
/-- Literal `-90.0f`. -/
def cNeg90 : F32 := ⟨0xC2B40000⟩
/-- Literal `-5.0f`. -/
def cNeg5 : F32 := ⟨0xC0A00000⟩
/-- Literal `-1.0f`. -/
def cNeg1 : F32 := ⟨0xBF800000⟩
/-- A quiet NaN (exponent all ones, top fraction bit set). -/
def nan : F32 := ⟨0x7FC00000⟩

end F32

/-- Modelled from the spec: `Math::Max` (Engine/Core/Math/Math.h, not among the sources) is the
larger of its two arguments, written the usual way as `a > b ? a : b`. -/
def Math.Max (a b : F32) : F32 := if F32.gt a b then a else b

/-! ## Value types (declared in D6Joint.h, HingeJoint.h and Limits.h) -/

/-- Motion mode of one axis; the enumerators count from 0 like `PxD6Motion`. -/
inductive D6JointMotion where
  | Locked
  | Limited
  | Free
deriving DecidableEq, Repr

/-- The integer value of the enumerator. -/
def D6JointMotion.toInt : D6JointMotion → Int
  | .Locked => 0
  | .Limited => 1
  | .Free => 2

/-- The enumerator with a given integer value, if there is one. -/
def D6JointMotion.ofInt (n : Int) : Option D6JointMotion :=
  if n = 0 then some .Locked else if n = 1 then some .Limited else if n = 2 then some .Free else none

/-- The six axes; `MAX` (= 6) is the array size and not an axis. -/
inductive D6JointAxis where
  | X
  | Y
  | Z
  | Twist
  | Swing1
  | Swing2
deriving DecidableEq, Repr

/-- `static_cast<int32>(axis)`. -/
def D6JointAxis.toIndex : D6JointAxis → Fin 6
  | .X => 0
  | .Y => 1
  | .Z => 2
  | .Twist => 3
  | .Swing1 => 4
  | .Swing2 => 5

/-- Drive channel; `static_cast<int32>(index)` is one of 0..5. -/
abbrev D6JointDriveType := Fin 6

/-- Drive parameters of one channel. -/
structure D6JointDrive where
  Stiffness : F32
  Damping : F32
  ForceLimit : F32
  Acceleration : Bool
deriving DecidableEq, Repr

/-- Modelled from the spec: `D6JointDrive::operator==` (D6Joint.h is not among the sources) is
equality by value, field by field, with `==` of `float` on the float fields. -/
def D6JointDrive.eq (a b : D6JointDrive) : Bool :=
  F32.eq a.Stiffness b.Stiffness && F32.eq a.Damping b.Damping
    && F32.eq a.ForceLimit b.ForceLimit && (a.Acceleration == b.Acceleration)

/-- The spec's validity of drive parameters: Stiffness, Damping and ForceLimit are `>= 0`. -/
def D6JointDrive.Valid (p : D6JointDrive) : Prop :=
  F32.ge p.Stiffness F32.zero = true ∧ F32.ge p.Damping F32.zero = true
    ∧ F32.ge p.ForceLimit F32.zero = true

/-- Spring softening of a limit. -/
structure SpringParameters where
  Stiffness : F32
  Damping : F32
deriving DecidableEq, Repr

/-- Modelled from the spec: `SpringParameters::operator==` (Limits.h is not among the sources),
equality by value. -/
def SpringParameters.eq (a b : SpringParameters) : Bool :=
  F32.eq a.Stiffness b.Stiffness && F32.eq a.Damping b.Damping

/-- Linear limit. -/
structure LimitLinear where
  Extent : F32
  Restitution : F32
  ContactDist : F32
  Spring : SpringParameters
deriving DecidableEq, Repr

/-- Modelled from the spec: `LimitLinear::operator==` (Limits.h is not among the sources),
equality by value. -/
def LimitLinear.eq (a b : LimitLinear) : Bool :=
  F32.eq a.Extent b.Extent && F32.eq a.Restitution b.Restitution
    && F32.eq a.ContactDist b.ContactDist && SpringParameters.eq a.Spring b.Spring

/-- Angular range limit, in degrees (twist of the D6 joint, the hinge limit). -/
structure LimitAngularRange where
  Lower : F32
  Upper : F32
  Restitution : F32
  ContactDist : F32
  Spring : SpringParameters
deriving DecidableEq, Repr

/-- Modelled from the spec: `LimitAngularRange::operator==` (Limits.h is not among the sources),
equality by value. -/
def LimitAngularRange.eq (a b : LimitAngularRange) : Bool :=
  F32.eq a.Lower b.Lower && F32.eq a.Upper b.Upper && F32.eq a.Restitution b.Restitution
    && F32.eq a.ContactDist b.ContactDist && SpringParameters.eq a.Spring b.Spring

/-- Cone limit, in degrees (swing of the D6 joint). -/
structure LimitConeRange where
  YLimitAngle : F32
  ZLimitAngle : F32
  Restitution : F32
  ContactDist : F32
  Spring : SpringParameters
deriving DecidableEq, Repr

/-- Modelled from the spec: `LimitConeRange::operator==` (Limits.h is not among the sources),
equality by value. -/
def LimitConeRange.eq (a b : LimitConeRange) : Bool :=
  F32.eq a.YLimitAngle b.YLimitAngle && F32.eq a.ZLimitAngle b.ZLimitAngle
    && F32.eq a.Restitution b.Restitution && F32.eq a.ContactDist b.ContactDist
    && SpringParameters.eq a.Spring b.Spring

/-- Hinge drive. -/
structure HingeJointDrive where
  Velocity : F32
  ForceLimit : F32
  GearRatio : F32
  FreeSpin : Bool
deriving DecidableEq, Repr

/-- Modelled from the spec: `HingeJointDrive::operator==` (HingeJoint.h is not among the
sources), equality by value. -/
def HingeJointDrive.eq (a b : HingeJointDrive) : Bool :=
  F32.eq a.Velocity b.Velocity && F32.eq a.ForceLimit b.ForceLimit
    && F32.eq a.GearRatio b.GearRatio && (a.FreeSpin == b.FreeSpin)

/-- `Vector3` and `PxVec3`; `C2P` and `P2C` copy the three components. -/
structure Vector3 where
  X : F32
  Y : F32
  Z : F32
deriving DecidableEq, Repr

/-- `Vector3::Zero`. -/
def Vector3.Zero : Vector3 := ⟨F32.zero, F32.zero, F32.zero⟩

/-- `Quaternion` and `PxQuat`; `C2P` and `P2C` copy the four components. -/
structure Quaternion where
  X : F32
  Y : F32
  Z : F32
  W : F32
deriving DecidableEq, Repr

/-- `Quaternion::Identity`. -/
def Quaternion.Identity : Quaternion := ⟨F32.zero, F32.zero, F32.zero, F32.one⟩

/-- `PxTransform`: position `p` and rotation `q`. -/
structure PxTransform where
  p : Vector3
  q : Quaternion
deriving DecidableEq, Repr

/-- The part of `JointData` that `CreateJoint` reads; actors are handles. -/
structure JointData where
  Actor0 : Nat
  Actor1 : Nat
  Pos0 : Vector3
  Rot0 : Quaternion
  Pos1 : Vector3
  Rot1 : Quaternion
deriving DecidableEq, Repr

/-! ## The native D6 joint (PhysX), as a recording stub -/

/-- `PxD6JointDrive`; `flags` is 0 or `PxD6JointDriveFlag::eACCELERATION`. -/
structure PxD6JointDrive where
  stiffness : F32
  damping : F32
  forceLimit : F32
  flags : Nat
deriving DecidableEq, Repr

/-- `PxD6JointDriveFlag::eACCELERATION`. -/
def PxD6JointDriveFlag.eACCELERATION : Nat := 1

/-- `PxJointLinearLimit`: `value` and `contactDistance` are the constructor's `extent` and
`contactDist` arguments as passed. -/
structure PxJointLinearLimit where
  value : F32
  contactDistance : F32
  stiffness : F32
  damping : F32
  restitution : F32
deriving DecidableEq, Repr

/-- `PxJointAngularLimitPair`, with the constructor's arguments as passed. -/
structure PxJointAngularLimitPair where
  lower : F32
  upper : F32
  contactDistance : F32
  stiffness : F32
  damping : F32
  restitution : F32
deriving DecidableEq, Repr

/-- `PxJointLimitCone`, with the constructor's arguments as passed. -/
structure PxJointLimitCone where
  yAngle : F32
  zAngle : F32
  contactDistance : F32
  stiffness : F32
  damping : F32
  restitution : F32
deriving DecidableEq, Repr

/-- One mutating call on a `PxD6Joint`, with its arguments. -/
inductive PxD6Call where
  | setMotion (axis : Fin 6) (type : D6JointMotion)
  | setDrive (index : Fin 6) (drive : PxD6JointDrive)
  | setLinearLimit (limit : PxJointLinearLimit)
  | setDistanceLimit (limit : PxJointLinearLimit)
  | setTwistLimit (limit : PxJointAngularLimitPair)
  | setSwingLimit (limit : PxJointLimitCone)
  | setDrivePosition (pose : PxTransform)
  | setDriveVelocity (linear : Vector3) (angular : Vector3)
deriving DecidableEq, Repr

/-- The live native joint: what it was created from, the calls made on it so far (oldest
first), the drive target it holds and the telemetry it reports. -/
structure PxD6Joint where
  actor0 : Nat
  localPose0 : PxTransform
  actor1 : Nat
  localPose1 : PxTransform
  calls : List PxD6Call
  drivePosition : PxTransform
  driveLinear : Vector3
  driveAngular : Vector3
  twistAngle : F32
  swingYAngle : F32
  swingZAngle : F32
deriving DecidableEq, Repr

namespace PxD6Joint

/-- Record a call. -/
def record (j : PxD6Joint) (c : PxD6Call) : PxD6Joint := { j with calls := j.calls ++ [c] }

def setMotion (j : PxD6Joint) (axis : Fin 6) (type : D6JointMotion) : PxD6Joint :=
  j.record (.setMotion axis type)

def setDrive (j : PxD6Joint) (index : Fin 6) (drive : PxD6JointDrive) : PxD6Joint :=
  j.record (.setDrive index drive)

def setLinearLimit (j : PxD6Joint) (limit : PxJointLinearLimit) : PxD6Joint :=
  j.record (.setLinearLimit limit)

def setDistanceLimit (j : PxD6Joint) (limit : PxJointLinearLimit) : PxD6Joint :=
  j.record (.setDistanceLimit limit)

def setTwistLimit (j : PxD6Joint) (limit : PxJointAngularLimitPair) : PxD6Joint :=
  j.record (.setTwistLimit limit)

def setSwingLimit (j : PxD6Joint) (limit : PxJointLimitCone) : PxD6Joint :=
  j.record (.setSwingLimit limit)

def getDrivePosition (j : PxD6Joint) : PxTransform := j.drivePosition

def setDrivePosition (j : PxD6Joint) (pose : PxTransform) : PxD6Joint :=
  { j.record (.setDrivePosition pose) with drivePosition := pose }

/-- The two out-parameters `linear` and `angular`, as a pair. -/
def getDriveVelocity (j : PxD6Joint) : Vector3 × Vector3 := (j.driveLinear, j.driveAngular)

def setDriveVelocity (j : PxD6Joint) (linear angular : Vector3) : PxD6Joint :=
  { j.record (.setDriveVelocity linear angular) with driveLinear := linear, driveAngular := angular }

def getTwistAngle (j : PxD6Joint) : F32 := j.twistAngle

def getSwingYAngle (j : PxD6Joint) : F32 := j.swingYAngle

def getSwingZAngle (j : PxD6Joint) : F32 := j.swingZAngle

end PxD6Joint

/-- `PxD6JointCreate`: a fresh native joint between the two actors, no call made on it yet,
with PhysX's initial drive target (identity pose, zero velocities). -/
def PxD6JointCreate (actor0 : Nat) (trans0 : PxTransform) (actor1 : Nat) (trans1 : PxTransform) :
    PxD6Joint :=
  { actor0 := actor0, localPose0 := trans0, actor1 := actor1, localPose1 := trans1,
    calls := [],
    drivePosition := ⟨Vector3.Zero, Quaternion.Identity⟩,
    driveLinear := Vector3.Zero, driveAngular := Vector3.Zero,
    twistAngle := F32.zero, swingYAngle := F32.zero, swingZAngle := F32.zero }

/-! ## D6Joint -/

/-- The members of `D6Joint` that D6Joint.cpp touches; `_joint = none` is the null handle. -/
structure D6Joint where
  _motion : Fin 6 → D6JointMotion
  _drive : Fin 6 → D6JointDrive
  _limitLinear : LimitLinear
  _limitTwist : LimitAngularRange
  _limitSwing : LimitConeRange
  _joint : Option PxD6Joint

/-- In-class initial values of the members that the constructor body does not assign
(D6Joint.h and Limits.h are not among the sources, so they are left open). -/
structure D6JointInit where
  drive : D6JointDrive
  limitLinear : LimitLinear
  limitTwist : LimitAngularRange
  limitSwing : LimitConeRange

namespace D6Joint

/-- `D6Joint::D6Joint`: every motion `Free`, linear extent `100.0f`, no native joint. -/
def ctor (init : D6JointInit) : D6Joint :=
  { _motion := fun _ => D6JointMotion.Free,
    _drive := fun _ => init.drive,
    _limitLinear := { init.limitLinear with Extent := F32.c100 },
    _limitTwist := init.limitTwist,
    _limitSwing := init.limitSwing,
    _joint := none }

/-- `GetMotion` (inline in D6Joint.h): `_motion[static_cast<int32>(axis)]`. -/
def GetMotion (s : D6Joint) (axis : D6JointAxis) : D6JointMotion := s._motion axis.toIndex

/-- `GetDrive` (inline in D6Joint.h): `_drive[static_cast<int32>(index)]`. -/
def GetDrive (s : D6Joint) (index : D6JointDriveType) : D6JointDrive := s._drive index

/-- `D6Joint::SetMotion`. -/
def SetMotion (s : D6Joint) (axis : D6JointAxis) (value : D6JointMotion) : D6Joint :=
  if value = s.GetMotion axis then s
  else
    let s1 := { s with _motion := Function.update s._motion axis.toIndex value }
    match s1._joint with
    | some joint => { s1 with _joint := some (joint.setMotion axis.toIndex value) }
    | none => s1

/-- The `PxD6JointDrive` that `SetDrive` and `CreateJoint` build from a drive. -/
def toPxDrive (value : D6JointDrive) : PxD6JointDrive :=
  { flags := if value.Acceleration then PxD6JointDriveFlag.eACCELERATION else 0,
    stiffness := value.Stiffness,
    damping := value.Damping,
    forceLimit := value.ForceLimit }

/-- `D6Joint::SetDrive`. -/
def SetDrive (s : D6Joint) (index : D6JointDriveType) (value : D6JointDrive) : D6Joint :=
  if D6JointDrive.eq value (s.GetDrive index) then s
  else
    let s1 := { s with _drive := Function.update s._drive index value }
    match s1._joint with
    | some joint => { s1 with _joint := some (joint.setDrive index (toPxDrive value)) }
    | none => s1

/-- `D6Joint::SetLimitLinear`. -/
def SetLimitLinear (s : D6Joint) (value : LimitLinear) : D6Joint :=
  if LimitLinear.eq value s._limitLinear then s
  else
    let s1 := { s with _limitLinear := value }
    match s1._joint with
    | some joint =>
      let pxLimit : PxJointLinearLimit :=
        { value := value.Extent, contactDistance := value.ContactDist,
          stiffness := value.Spring.Stiffness,
          damping := value.Spring.Damping,
          restitution := value.Restitution }
      { s1 with _joint := some (joint.setLinearLimit pxLimit) }
    | none => s1

/-- `D6Joint::SetLimitTwist`; `toRad x` stands for the float product `x * FDegreesToRadians`. -/
def SetLimitTwist (toRad : F32 → F32) (s : D6Joint) (value : LimitAngularRange) : D6Joint :=
  if LimitAngularRange.eq value s._limitTwist then s
  else
    let s1 := { s with _limitTwist := value }
    match s1._joint with
    | some joint =>
      let pxLimit : PxJointAngularLimitPair :=
        { lower := toRad value.Lower, upper := toRad value.Upper,
          contactDistance := value.ContactDist,
          stiffness := value.Spring.Stiffness,
          damping := value.Spring.Damping,
          restitution := value.Restitution }
      { s1 with _joint := some (joint.setTwistLimit pxLimit) }
    | none => s1

/-- `D6Joint::SetLimitSwing`; `toRad x` stands for the float product `x * FDegreesToRadians`. -/
def SetLimitSwing (toRad : F32 → F32) (s : D6Joint) (value : LimitConeRange) : D6Joint :=
  if LimitConeRange.eq value s._limitSwing then s
  else
    let s1 := { s with _limitSwing := value }
    match s1._joint with
    | some joint =>
      let pxLimit : PxJointLimitCone :=
        { yAngle := toRad value.YLimitAngle, zAngle := toRad value.ZLimitAngle,
          contactDistance := value.ContactDist,
          stiffness := value.Spring.Stiffness,
          damping := value.Spring.Damping,
          restitution := value.Restitution }
      { s1 with _joint := some (joint.setSwingLimit pxLimit) }
    | none => s1

/-- `D6Joint::GetDrivePosition`. -/
def GetDrivePosition (s : D6Joint) : Vector3 :=
  match s._joint with
  | some joint => joint.getDrivePosition.p
  | none => Vector3.Zero

/-- `D6Joint::SetDrivePosition`. -/
def SetDrivePosition (s : D6Joint) (value : Vector3) : D6Joint :=
  match s._joint with
  | some joint =>
    let t := joint.getDrivePosition
    let t := { t with p := value }
    { s with _joint := some (joint.setDrivePosition t) }
  | none => s

/-- `D6Joint::GetDriveRotation`. -/
def GetDriveRotation (s : D6Joint) : Quaternion :=
  match s._joint with
  | some joint => joint.getDrivePosition.q
  | none => Quaternion.Identity

/-- `D6Joint::SetDriveRotation`. -/
def SetDriveRotation (s : D6Joint) (value : Quaternion) : D6Joint :=
  match s._joint with
  | some joint =>
    let t := joint.getDrivePosition
    let t := { t with q := value }
    { s with _joint := some (joint.setDrivePosition t) }
  | none => s

/-- `D6Joint::GetDriveLinearVelocity`. -/
def GetDriveLinearVelocity (s : D6Joint) : Vector3 :=
  match s._joint with
  | some joint => joint.getDriveVelocity.1
  | none => Vector3.Zero

/-- `D6Joint::SetDriveLinearVelocity`. -/
def SetDriveLinearVelocity (s : D6Joint) (value : Vector3) : D6Joint :=
  match s._joint with
  | some joint =>
    let angular := joint.getDriveVelocity.2
    let linear := value
    { s with _joint := some (joint.setDriveVelocity linear angular) }
  | none => s

/-- `D6Joint::GetDriveAngularVelocity`. -/
def GetDriveAngularVelocity (s : D6Joint) : Vector3 :=
  match s._joint with
  | some joint => joint.getDriveVelocity.2
  | none => Vector3.Zero

/-- `D6Joint::SetDriveAngularVelocity`. -/
def SetDriveAngularVelocity (s : D6Joint) (value : Vector3) : D6Joint :=
  match s._joint with
  | some joint =>
    let linear := joint.getDriveVelocity.1
    let angular := value
    { s with _joint := some (joint.setDriveVelocity linear angular) }
  | none => s

/-- `D6Joint::GetCurrentTwist`. -/
def GetCurrentTwist (s : D6Joint) : F32 :=
  match s._joint with
  | some joint => joint.getTwistAngle
  | none => F32.zero

/-- `D6Joint::GetCurrentSwingYAngle`. -/
def GetCurrentSwingYAngle (s : D6Joint) : F32 :=
  match s._joint with
  | some joint => joint.getSwingYAngle
  | none => F32.zero

/-- `D6Joint::GetCurrentSwingZAngle`. -/
def GetCurrentSwingZAngle (s : D6Joint) : F32 :=
  match s._joint with
  | some joint => joint.getSwingZAngle
  | none => F32.zero

/-- The array indices 0..5 in loop order (`for (int32 i = 0; i < 6; i++)`). -/
def indices : List (Fin 6) := [0, 1, 2, 3, 4, 5]

/-- `D6Joint::CreateJoint`: the native joint it returns. The function assigns no member of the
object, so the stored configuration is what it was. -/
def CreateJoint (toRad : F32 → F32) (s : D6Joint) (data : JointData) : PxD6Joint :=
  let trans0 : PxTransform := ⟨data.Pos0, data.Rot0⟩
  let trans1 : PxTransform := ⟨data.Pos1, data.Rot1⟩
  let joint := PxD6JointCreate data.Actor0 trans0 data.Actor1 trans1
  let joint := indices.foldl (fun joint i => joint.setMotion i (s._motion i)) joint
  let joint := indices.foldl (fun joint i => joint.setDrive i (toPxDrive (s._drive i))) joint
  let joint :=
    let value := s._limitLinear
    let pxLimit : PxJointLinearLimit :=
      { value := Math.Max value.Extent F32.c0_01, contactDistance := value.ContactDist,
        stiffness := value.Spring.Stiffness,
        damping := value.Spring.Damping,
        restitution := value.Restitution }
    joint.setDistanceLimit pxLimit
  let joint :=
    let value := s._limitTwist
    let pxLimit : PxJointAngularLimitPair :=
      { lower := toRad value.Lower, upper := toRad value.Upper,
        contactDistance := value.ContactDist,
        stiffness := value.Spring.Stiffness,
        damping := value.Spring.Damping,
        restitution := value.Restitution }
    joint.setTwistLimit pxLimit
  let joint :=
    let value := s._limitSwing
    let pxLimit : PxJointLimitCone :=
      { yAngle := toRad value.YLimitAngle, zAngle := toRad value.ZLimitAngle,
        contactDistance := value.ContactDist,
        stiffness := value.Spring.Stiffness,
        damping := value.Spring.Damping,
        restitution := value.Restitution }
    joint.setSwingLimit pxLimit
  joint

end D6Joint

/-! ## The native revolute joint (PhysX), as a recording stub -/

/-- `PxRevoluteJointFlag::eLIMIT_ENABLED`. -/
def PxRevoluteJointFlag.eLIMIT_ENABLED : Nat := 1
/-- `PxRevoluteJointFlag::eDRIVE_ENABLED`. -/
def PxRevoluteJointFlag.eDRIVE_ENABLED : Nat := 2
/-- `PxRevoluteJointFlag::eDRIVE_FREESPIN`. -/
def PxRevoluteJointFlag.eDRIVE_FREESPIN : Nat := 4

/-- One mutating call on a `PxRevoluteJoint`, with its arguments. -/
inductive PxRevoluteCall where
  | setRevoluteJointFlag (flag : Nat) (value : Bool)
  | setRevoluteJointFlags (flags : Nat)
  | setDriveVelocity (velocity : F32)
  | setDriveForceLimit (limit : F32)
  | setDriveGearRatio (ratio : F32)
  | setLimit (limit : PxJointAngularLimitPair)
deriving DecidableEq, Repr

/-- The live native joint: what it was created from, the calls made on it so far (oldest
first) and the telemetry it reports. -/
structure PxRevoluteJoint where
  actor0 : Nat
  localPose0 : PxTransform
  actor1 : Nat
  localPose1 : PxTransform
  calls : List PxRevoluteCall
  angle : F32
  velocity : F32
deriving DecidableEq, Repr

namespace PxRevoluteJoint

/-- Record a call. -/
def record (j : PxRevoluteJoint) (c : PxRevoluteCall) : PxRevoluteJoint :=
  { j with calls := j.calls ++ [c] }

def setRevoluteJointFlag (j : PxRevoluteJoint) (flag : Nat) (value : Bool) : PxRevoluteJoint :=
  j.record (.setRevoluteJointFlag flag value)

def setRevoluteJointFlags (j : PxRevoluteJoint) (flags : Nat) : PxRevoluteJoint :=
  j.record (.setRevoluteJointFlags flags)

def setDriveVelocity (j : PxRevoluteJoint) (velocity : F32) : PxRevoluteJoint :=
  j.record (.setDriveVelocity velocity)

def setDriveForceLimit (j : PxRevoluteJoint) (limit : F32) : PxRevoluteJoint :=
  j.record (.setDriveForceLimit limit)

def setDriveGearRatio (j : PxRevoluteJoint) (ratio : F32) : PxRevoluteJoint :=
  j.record (.setDriveGearRatio ratio)

def setLimit (j : PxRevoluteJoint) (limit : PxJointAngularLimitPair) : PxRevoluteJoint :=
  j.record (.setLimit limit)

def getAngle (j : PxRevoluteJoint) : F32 := j.angle

def getVelocity (j : PxRevoluteJoint) : F32 := j.velocity

end PxRevoluteJoint

/-- `PxRevoluteJointCreate`: a fresh native joint between the two actors, no call made on it
yet. -/
def PxRevoluteJointCreate (actor0 : Nat) (trans0 : PxTransform) (actor1 : Nat)
    (trans1 : PxTransform) : PxRevoluteJoint :=
  { actor0 := actor0, localPose0 := trans0, actor1 := actor1, localPose1 := trans1,
    calls := [], angle := F32.zero, velocity := F32.zero }

/-! ## HingeJoint -/

/-- Modelled from the spec: `HingeJointFlag` (HingeJoint.h is not among the sources) is a bitset
with a limit-enabled and a drive-enabled bit; the value is kept as its bit pattern. -/
abbrev HingeJointFlag := Nat

/-- The limit-enabled bit. -/
def HingeJointFlag.Limit : HingeJointFlag := 1
/-- The drive-enabled bit. -/
def HingeJointFlag.Drive : HingeJointFlag := 2

/-- The members of `HingeJoint` that HingeJoint.cpp touches; `_joint = none` is the null
handle. -/
structure HingeJoint where
  _flags : HingeJointFlag
  _limit : LimitAngularRange
  _drive : HingeJointDrive
  _joint : Option PxRevoluteJoint
deriving DecidableEq

/-- In-class initial values of the members that the constructor does not assign (HingeJoint.h
and Limits.h are not among the sources, so they are left open). -/
structure HingeJointInit where
  limit : LimitAngularRange
  drive : HingeJointDrive

namespace HingeJoint

/-- `HingeJoint::HingeJoint`: flags `Limit | Drive`, limit from `-90.0f` to `90.0f`, no native
joint. -/
def ctor (init : HingeJointInit) : HingeJoint :=
  { _flags := HingeJointFlag.Limit ||| HingeJointFlag.Drive,
    _limit := { init.limit with Lower := F32.cNeg90, Upper := F32.c90 },
    _drive := init.drive,
    _joint := none }

/-- `HingeJoint::SetFlags`. -/
def SetFlags (s : HingeJoint) (value : HingeJointFlag) : HingeJoint :=
  if s._flags = value then s
  else
    let s1 := { s with _flags := value }
    match s1._joint with
    | some joint =>
      let joint := joint.setRevoluteJointFlag PxRevoluteJointFlag.eLIMIT_ENABLED
        ((s1._flags &&& HingeJointFlag.Limit) != 0)
      let joint := joint.setRevoluteJointFlag PxRevoluteJointFlag.eDRIVE_ENABLED
        ((s1._flags &&& HingeJointFlag.Drive) != 0)
      { s1 with _joint := some joint }
    | none => s1

/-- `HingeJoint::SetLimit`; `toRad x` stands for the float product `x * FDegreesToRadians`. -/
def SetLimit (toRad : F32 → F32) (s : HingeJoint) (value : LimitAngularRange) : HingeJoint :=
  if LimitAngularRange.eq s._limit value then s
  else
    let s1 := { s with _limit := value }
    match s1._joint with
    | some joint =>
      let limit : PxJointAngularLimitPair :=
        { lower := toRad value.Lower, upper := toRad value.Upper,
          contactDistance := value.ContactDist,
          stiffness := value.Spring.Stiffness,
          damping := value.Spring.Damping,
          restitution := value.Restitution }
      { s1 with _joint := some (joint.setLimit limit) }
    | none => s1

/-- `HingeJoint::SetDrive`. -/
def SetDrive (s : HingeJoint) (value : HingeJointDrive) : HingeJoint :=
  if HingeJointDrive.eq s._drive value then s
  else
    let s1 := { s with _drive := value }
    match s1._joint with
    | some joint =>
      let joint := joint.setDriveVelocity (Math.Max value.Velocity F32.zero)
      let joint := joint.setDriveForceLimit (Math.Max value.ForceLimit F32.zero)
      let joint := joint.setDriveGearRatio (Math.Max value.GearRatio F32.zero)
      let joint := joint.setRevoluteJointFlag PxRevoluteJointFlag.eDRIVE_FREESPIN value.FreeSpin
      { s1 with _joint := some joint }
    | none => s1

/-- `HingeJoint::GetCurrentAngle`. -/
def GetCurrentAngle (s : HingeJoint) : F32 :=
  match s._joint with
  | some joint => joint.getAngle
  | none => F32.zero

/-- `HingeJoint::GetCurrentVelocity`. -/
def GetCurrentVelocity (s : HingeJoint) : F32 :=
  match s._joint with
  | some joint => joint.getVelocity
  | none => F32.zero

/-- `HingeJoint::CreateJoint`: the native joint it returns. The function assigns no member of
the object, so the stored configuration is what it was. -/
def CreateJoint (toRad : F32 → F32) (s : HingeJoint) (data : JointData) : PxRevoluteJoint :=
  let trans0 : PxTransform := ⟨data.Pos0, data.Rot0⟩
  let trans1 : PxTransform := ⟨data.Pos1, data.Rot1⟩
  let joint := PxRevoluteJointCreate data.Actor0 trans0 data.Actor1 trans1
  let flags : Nat := 0
  let flags := if (s._flags &&& HingeJointFlag.Limit) != 0
    then flags ||| PxRevoluteJointFlag.eLIMIT_ENABLED else flags
  let flags := if (s._flags &&& HingeJointFlag.Drive) != 0
    then flags ||| PxRevoluteJointFlag.eDRIVE_ENABLED else flags
  let flags := if s._drive.FreeSpin
    then flags ||| PxRevoluteJointFlag.eDRIVE_FREESPIN else flags
  let joint := joint.setRevoluteJointFlags flags
  let joint := joint.setDriveVelocity s._drive.Velocity
  let joint := joint.setDriveForceLimit s._drive.ForceLimit
  let joint := joint.setDriveGearRatio s._drive.GearRatio
  let limit : PxJointAngularLimitPair :=
    { lower := toRad s._limit.Lower, upper := toRad s._limit.Upper,
      contactDistance := s._limit.ContactDist,
      stiffness := s._limit.Spring.Stiffness,
      damping := s._limit.Spring.Damping,
      restitution := s._limit.Restitution }
  joint.setLimit limit

end HingeJoint

/-! ## The scene document -/

/-- A value the joints write: `stream.Enum` and integers, `stream.Float`, `stream.Bool`. A float
is kept as the `float` that was written. -/
inductive JsonValue where
  | Int (v : Int)
  | Float (v : F32)
  | Bool (v : Bool)
deriving DecidableEq, Repr

/-- The members written so far into the object being serialized, in order. -/
abbrev SerializeStream := List (String × JsonValue)

/-- The object being deserialized: its members in document order. -/
abbrev DeserializeStream := List (String × JsonValue)

/-- The `char` array `char name[size] = "literal"`: the literal's characters, the rest of the
array filled with NUL. -/
def charArray (size : Nat) (literal : String) : List Char :=
  literal.toList ++ List.replicate (size - literal.length) (Char.ofNat 0)

/-- `ARRAY_COUNT(buffer)`: the number of elements of the array. -/
def ARRAY_COUNT (buffer : List Char) : Nat := buffer.length

/-- The character `'0' + i`. -/
def digit (i : Fin 6) : Char := Char.ofNat ('0'.toNat + i.val)

/-- A `const char*` argument read as a null-terminated string: the characters before the first
NUL. -/
def cString (buffer : List Char) : String := String.mk (buffer.takeWhile (fun c => c != Char.ofNat 0))

/-- Modelled from the spec: `stream.Key(str, length)` (the JSON writer is not among the
sources) names the next member with the `length` characters starting at `str`. -/
def SerializeStream.Key (str : List Char) (length : Nat) : String := String.mk (str.take length)

/-- A `Key` call and the value call that follows it add one member to the object. -/
def SerializeStream.write (stream : SerializeStream) (key : String) (value : JsonValue) :
    SerializeStream :=
  stream ++ [(key, value)]

/-- Modelled from the spec: member lookup in the document (the JSON reader is not among the
sources): the value of the first member whose key is exactly `name`. -/
def DeserializeStream.FindMember (stream : DeserializeStream) (name : String) : Option JsonValue :=
  (stream.find? (fun member => member.1 == name)).map (fun member => member.2)

/-- Modelled from the spec: `JsonTools::GetEnum` (JsonTools.h is not among the sources) reads the
member `name` when the document has it and leaves `result` at its prior value otherwise. -/
def JsonTools.GetEnum (result : D6JointMotion) (stream : DeserializeStream) (name : List Char) :
    D6JointMotion :=
  match stream.FindMember (cString name) with
  | some (.Int v) => (D6JointMotion.ofInt v).getD result
  | _ => result

/-- Modelled from the spec: `JsonTools::GetFloat` (JsonTools.h is not among the sources) reads
the member `name` when the document has it and leaves `result` at its prior value otherwise. -/
def JsonTools.GetFloat (result : F32) (stream : DeserializeStream) (name : List Char) : F32 :=
  match stream.FindMember (cString name) with
  | some (.Float v) => v
  | _ => result

/-- Modelled from the spec: `JsonTools::GetBool` (JsonTools.h is not among the sources) reads the
member `name` when the document has it and leaves `result` at its prior value otherwise. -/
def JsonTools.GetBool (result : Bool) (stream : DeserializeStream) (name : List Char) : Bool :=
  match stream.FindMember (cString name) with
  | some (.Bool v) => v
  | _ => result

/-- Modelled from the spec: `SERIALIZE_MEMBER(name, member)` on a `float` member (Serialization.h
is not among the sources): the member is written under the key `name` when there is no
reference object or it differs from the reference's member. -/
def SERIALIZE_MEMBER_Float (stream : SerializeStream) (name : String) (member : F32)
    (other : Option F32) : SerializeStream :=
  match other with
  | none => stream.write name (.Float member)
  | some o => if F32.ne member o then stream.write name (.Float member) else stream

/-- Modelled from the spec: `SERIALIZE_MEMBER(name, member)` on a `bool` member. -/
def SERIALIZE_MEMBER_Bool (stream : SerializeStream) (name : String) (member : Bool)
    (other : Option Bool) : SerializeStream :=
  match other with
  | none => stream.write name (.Bool member)
  | some o => if member != o then stream.write name (.Bool member) else stream

/-- Modelled from the spec: `SERIALIZE_MEMBER(name, member)` on the flags enum, written as its
integer value. -/
def SERIALIZE_MEMBER_Enum (stream : SerializeStream) (name : String) (member : HingeJointFlag)
    (other : Option HingeJointFlag) : SerializeStream :=
  match other with
  | none => stream.write name (.Int (Int.ofNat member))
  | some o => if member != o then stream.write name (.Int (Int.ofNat member)) else stream

/-- Modelled from the spec: `DESERIALIZE_MEMBER(name, member)` on a `float` member: each field is
read independently, and a field the document does not have keeps its prior value. -/
def DESERIALIZE_MEMBER_Float (stream : DeserializeStream) (name : String) (member : F32) : F32 :=
  match stream.FindMember name with
  | some (.Float v) => v
  | _ => member

/-- Modelled from the spec: `DESERIALIZE_MEMBER(name, member)` on a `bool` member. -/
def DESERIALIZE_MEMBER_Bool (stream : DeserializeStream) (name : String) (member : Bool) : Bool :=
  match stream.FindMember name with
  | some (.Bool v) => v
  | _ => member

/-- Modelled from the spec: `DESERIALIZE_MEMBER(name, member)` on the flags enum: the 32-bit
pattern of the integer read. -/
def DESERIALIZE_MEMBER_Enum (stream : DeserializeStream) (name : String)
    (member : HingeJointFlag) : HingeJointFlag :=
  match stream.FindMember name with
  | some (.Int v) => (v % 4294967296).toNat
  | _ => member

namespace D6Joint

/-- `motionLabel` after `motionLabel[6] = '0' + i`. -/
def motionLabel (i : Fin 6) : List Char := (charArray 8 "Motion?").set 6 (digit i)

/-- `driveLabel_Stiffness` after `driveLabel_Stiffness[5] = '0' + i`. -/
def driveLabel_Stiffness (i : Fin 6) : List Char :=
  (charArray 17 "Drive?.Stiffness").set 5 (digit i)

/-- `driveLabel_Damping` after `driveLabel_Damping[5] = '0' + i`. -/
def driveLabel_Damping (i : Fin 6) : List Char :=
  (charArray 17 "Drive?.Damping").set 5 (digit i)

/-- `driveLabel_ForceLimit` after `driveLabel_ForceLimit[5] = '0' + i`. -/
def driveLabel_ForceLimit (i : Fin 6) : List Char :=
  (charArray 18 "Drive?.ForceLimit").set 5 (digit i)

/-- `driveLabel_Acceleration` after `driveLabel_Acceleration[5] = '0' + i`. -/
def driveLabel_Acceleration (i : Fin 6) : List Char :=
  (charArray 20 "Drive?.Acceleration").set 5 (digit i)

/-- The motion loop of `D6Joint::Serialize`, one iteration. -/
def serializeMotion (s : D6Joint) (other : Option D6Joint) (stream : SerializeStream)
    (i : Fin 6) : SerializeStream :=
  if other.all (fun o => s._motion i != o._motion i) then
    stream.write (SerializeStream.Key (motionLabel i) (ARRAY_COUNT (motionLabel i)))
      (.Int (s._motion i).toInt)
  else stream

/-- The drive loop of `D6Joint::Serialize`, one iteration. -/
def serializeDrive (s : D6Joint) (other : Option D6Joint) (stream : SerializeStream)
    (i : Fin 6) : SerializeStream :=
  let stream :=
    if other.all (fun o => F32.ne (s._drive i).Stiffness (o._drive i).Stiffness) then
      stream.write
        (SerializeStream.Key (driveLabel_Stiffness i) (ARRAY_COUNT (driveLabel_Stiffness i)))
        (.Float (s._drive i).Stiffness)
    else stream
  let stream :=
    if other.all (fun o => F32.ne (s._drive i).Damping (o._drive i).Damping) then
      stream.write
        (SerializeStream.Key (driveLabel_Damping i) (ARRAY_COUNT (driveLabel_Damping i)))
        (.Float (s._drive i).Damping)
    else stream
  let stream :=
    if other.all (fun o => F32.ne (s._drive i).ForceLimit (o._drive i).ForceLimit) then
      stream.write
        (SerializeStream.Key (driveLabel_ForceLimit i) (ARRAY_COUNT (driveLabel_ForceLimit i)))
        (.Float (s._drive i).ForceLimit)
    else stream
  let stream :=
    if other.all (fun o => (s._drive i).Acceleration != (o._drive i).Acceleration) then
      stream.write
        (SerializeStream.Key (driveLabel_Acceleration i) (ARRAY_COUNT (driveLabel_Acceleration i)))
        (.Bool (s._drive i).Acceleration)
    else stream
  stream

/-- `D6Joint::Serialize`, after the base class has written its part into `stream`; `other` is
the reference object (`none` when `otherObj` is null). The test `!other || a != b` is
`other.all (a != b)`. -/
def Serialize (s : D6Joint) (stream : SerializeStream) (other : Option D6Joint) :
    SerializeStream :=
  let stream := indices.foldl (serializeMotion s other) stream
  let stream := indices.foldl (serializeDrive s other) stream
  let stream := SERIALIZE_MEMBER_Float stream "LimitLinear.Extent" s._limitLinear.Extent
    (other.map fun o => o._limitLinear.Extent)
  let stream := SERIALIZE_MEMBER_Float stream "LimitLinear.Restitution" s._limitLinear.Restitution
    (other.map fun o => o._limitLinear.Restitution)
  let stream := SERIALIZE_MEMBER_Float stream "LimitLinear.ContactDist" s._limitLinear.ContactDist
    (other.map fun o => o._limitLinear.ContactDist)
  let stream := SERIALIZE_MEMBER_Float stream "LimitLinear.Stiffness"
    s._limitLinear.Spring.Stiffness (other.map fun o => o._limitLinear.Spring.Stiffness)
  let stream := SERIALIZE_MEMBER_Float stream "LimitLinear.Damping" s._limitLinear.Spring.Damping
    (other.map fun o => o._limitLinear.Spring.Damping)
  let stream := SERIALIZE_MEMBER_Float stream "LimitTwist.Lower" s._limitTwist.Lower
    (other.map fun o => o._limitTwist.Lower)
  let stream := SERIALIZE_MEMBER_Float stream "LimitTwist.Upper" s._limitTwist.Upper
    (other.map fun o => o._limitTwist.Upper)
  let stream := SERIALIZE_MEMBER_Float stream "LimitTwist.Restitution" s._limitTwist.Restitution
    (other.map fun o => o._limitTwist.Restitution)
  let stream := SERIALIZE_MEMBER_Float stream "LimitTwist.ContactDist" s._limitTwist.ContactDist
    (other.map fun o => o._limitTwist.ContactDist)
  let stream := SERIALIZE_MEMBER_Float stream "LimitTwist.Stiffness" s._limitTwist.Spring.Stiffness
    (other.map fun o => o._limitTwist.Spring.Stiffness)
  let stream := SERIALIZE_MEMBER_Float stream "LimitTwist.Damping" s._limitTwist.Spring.Damping
    (other.map fun o => o._limitTwist.Spring.Damping)
  let stream := SERIALIZE_MEMBER_Float stream "LimitSwing.YLimitAngle" s._limitSwing.YLimitAngle
    (other.map fun o => o._limitSwing.YLimitAngle)
  let stream := SERIALIZE_MEMBER_Float stream "LimitSwing.ZLimitAngle" s._limitSwing.ZLimitAngle
    (other.map fun o => o._limitSwing.ZLimitAngle)
  let stream := SERIALIZE_MEMBER_Float stream "LimitSwing.Restitution" s._limitSwing.Restitution
    (other.map fun o => o._limitSwing.Restitution)
  let stream := SERIALIZE_MEMBER_Float stream "LimitSwing.ContactDist" s._limitSwing.ContactDist
    (other.map fun o => o._limitSwing.ContactDist)
  let stream := SERIALIZE_MEMBER_Float stream "LimitSwing.Stiffness" s._limitSwing.Spring.Stiffness
    (other.map fun o => o._limitSwing.Spring.Stiffness)
  let stream := SERIALIZE_MEMBER_Float stream "LimitSwing.Damping" s._limitSwing.Spring.Damping
    (other.map fun o => o._limitSwing.Spring.Damping)
  stream

/-- The motion loop of `D6Joint::Deserialize`, one iteration. -/
def deserializeMotion (stream : DeserializeStream) (s : D6Joint) (i : Fin 6) : D6Joint :=
  { s with _motion :=
      Function.update s._motion i (JsonTools.GetEnum (s._motion i) stream (motionLabel i)) }

/-- The drive loop of `D6Joint::Deserialize`, one iteration. -/
def deserializeDrive (stream : DeserializeStream) (s : D6Joint) (i : Fin 6) : D6Joint :=
  let d := s._drive i
  let d := { d with Stiffness := JsonTools.GetFloat d.Stiffness stream (driveLabel_Stiffness i) }
  let d := { d with Damping := JsonTools.GetFloat d.Damping stream (driveLabel_Damping i) }
  let d := { d with ForceLimit := JsonTools.GetFloat d.ForceLimit stream (driveLabel_ForceLimit i) }
  let d := { d with
    Acceleration := JsonTools.GetBool d.Acceleration stream (driveLabel_Acceleration i) }
  { s with _drive := Function.update s._drive i d }

/-- `D6Joint::Deserialize`, after the base class has read its part. -/
def Deserialize (s : D6Joint) (stream : DeserializeStream) : D6Joint :=
  let s := indices.foldl (deserializeMotion stream) s
  let s := indices.foldl (deserializeDrive stream) s
  let get (result : F32) (name : String) : F32 := JsonTools.GetFloat result stream name.toList
  let linear : LimitLinear :=
    { Extent := get s._limitLinear.Extent "LimitLinear.Extent",
      Restitution := get s._limitLinear.Restitution "LimitLinear.Restitution",
      ContactDist := get s._limitLinear.ContactDist "LimitLinear.ContactDist",
      Spring :=
        { Stiffness := get s._limitLinear.Spring.Stiffness "LimitLinear.Stiffness",
          Damping := get s._limitLinear.Spring.Damping "LimitLinear.Damping" } }
  let twist : LimitAngularRange :=
    { Lower := get s._limitTwist.Lower "LimitTwist.Lower",
      Upper := get s._limitTwist.Upper "LimitTwist.Upper",
      Restitution := get s._limitTwist.Restitution "LimitTwist.Restitution",
      ContactDist := get s._limitTwist.ContactDist "LimitTwist.ContactDist",
      Spring :=
        { Stiffness := get s._limitTwist.Spring.Stiffness "LimitTwist.Stiffness",
          Damping := get s._limitTwist.Spring.Damping "LimitTwist.Damping" } }
  let swing : LimitConeRange :=
    { YLimitAngle := get s._limitSwing.YLimitAngle "LimitSwing.YLimitAngle",
      ZLimitAngle := get s._limitSwing.ZLimitAngle "LimitSwing.ZLimitAngle",
      Restitution := get s._limitSwing.Restitution "LimitSwing.Restitution",
      ContactDist := get s._limitSwing.ContactDist "LimitSwing.ContactDist",
      Spring :=
        { Stiffness := get s._limitSwing.Spring.Stiffness "LimitSwing.Stiffness",
          Damping := get s._limitSwing.Spring.Damping "LimitSwing.Damping" } }
  { s with _limitLinear := linear, _limitTwist := twist, _limitSwing := swing }

end D6Joint

namespace HingeJoint

/-- `HingeJoint::Serialize`, after the base class has written its part into `stream`; `other`
is the reference object (`none` when `otherObj` is null). -/
def Serialize (s : HingeJoint) (stream : SerializeStream) (other : Option HingeJoint) :
    SerializeStream :=
  let stream := SERIALIZE_MEMBER_Enum stream "Flags" s._flags (other.map fun o => o._flags)
  let stream := SERIALIZE_MEMBER_Float stream "ContactDist" s._limit.ContactDist
    (other.map fun o => o._limit.ContactDist)
  let stream := SERIALIZE_MEMBER_Float stream "Restitution" s._limit.Restitution
    (other.map fun o => o._limit.Restitution)
  let stream := SERIALIZE_MEMBER_Float stream "Stiffness" s._limit.Spring.Stiffness
    (other.map fun o => o._limit.Spring.Stiffness)
  let stream := SERIALIZE_MEMBER_Float stream "Damping" s._limit.Spring.Damping
    (other.map fun o => o._limit.Spring.Damping)
  let stream := SERIALIZE_MEMBER_Float stream "LowerLimit" s._limit.Lower
    (other.map fun o => o._limit.Lower)
  let stream := SERIALIZE_MEMBER_Float stream "UpperLimit" s._limit.Upper
    (other.map fun o => o._limit.Upper)
  let stream := SERIALIZE_MEMBER_Float stream "Velocity" s._drive.Velocity
    (other.map fun o => o._drive.Velocity)
  let stream := SERIALIZE_MEMBER_Float stream "ForceLimit" s._drive.ForceLimit
    (other.map fun o => o._drive.ForceLimit)
  let stream := SERIALIZE_MEMBER_Float stream "GearRatio" s._drive.GearRatio
    (other.map fun o => o._drive.GearRatio)
  let stream := SERIALIZE_MEMBER_Bool stream "FreeSpin" s._drive.FreeSpin
    (other.map fun o => o._drive.FreeSpin)
  stream

/-- `HingeJoint::Deserialize`, after the base class has read its part. -/
def Deserialize (s : HingeJoint) (stream : DeserializeStream) : HingeJoint :=
  { s with
    _flags := DESERIALIZE_MEMBER_Enum stream "Flags" s._flags,
    _limit :=
      { ContactDist := DESERIALIZE_MEMBER_Float stream "ContactDist" s._limit.ContactDist,
        Restitution := DESERIALIZE_MEMBER_Float stream "Restitution" s._limit.Restitution,
        Spring :=
          { Stiffness := DESERIALIZE_MEMBER_Float stream "Stiffness" s._limit.Spring.Stiffness,
            Damping := DESERIALIZE_MEMBER_Float stream "Damping" s._limit.Spring.Damping },
        Lower := DESERIALIZE_MEMBER_Float stream "LowerLimit" s._limit.Lower,
        Upper := DESERIALIZE_MEMBER_Float stream "UpperLimit" s._limit.Upper },
    _drive :=
      { Velocity := DESERIALIZE_MEMBER_Float stream "Velocity" s._drive.Velocity,
        ForceLimit := DESERIALIZE_MEMBER_Float stream "ForceLimit" s._drive.ForceLimit,
        GearRatio := DESERIALIZE_MEMBER_Float stream "GearRatio" s._drive.GearRatio,
        FreeSpin := DESERIALIZE_MEMBER_Bool stream "FreeSpin" s._drive.FreeSpin } }

end HingeJoint

/-! ## Definitions used to state and check the properties -/

/-- The reference object `o` holds the same configuration as `s`: the same motions, and drives
and limits that compare equal with `operator==`. -/
def D6Joint.SameConfig (s o : D6Joint) : Prop :=
  (∀ i, s._motion i = o._motion i)
  ∧ (∀ i, D6JointDrive.eq (s._drive i) (o._drive i) = true)
  ∧ LimitLinear.eq s._limitLinear o._limitLinear = true
  ∧ LimitAngularRange.eq s._limitTwist o._limitTwist = true
  ∧ LimitConeRange.eq s._limitSwing o._limitSwing = true

/-- The reference object `o` holds the same configuration as `s`: the same flags, and a limit
and a drive that compare equal with `operator==`. -/
def HingeJoint.SameConfig (s o : HingeJoint) : Prop :=
  s._flags = o._flags
  ∧ LimitAngularRange.eq s._limit o._limit = true
  ∧ HingeJointDrive.eq s._drive o._drive = true

instance (p : D6JointDrive) : Decidable p.Valid := by
  unfold D6JointDrive.Valid; infer_instance

/-- Keys, in order, that `D6Joint::Serialize` writes when there is no reference object. -/
def D6Joint.writtenKeys : List String :=
  (D6Joint.indices.map fun i =>
    SerializeStream.Key (D6Joint.motionLabel i) (ARRAY_COUNT (D6Joint.motionLabel i)))
  ++ (D6Joint.indices.flatMap fun i =>
    [SerializeStream.Key (D6Joint.driveLabel_Stiffness i) (ARRAY_COUNT (D6Joint.driveLabel_Stiffness i)),
     SerializeStream.Key (D6Joint.driveLabel_Damping i) (ARRAY_COUNT (D6Joint.driveLabel_Damping i)),
     SerializeStream.Key (D6Joint.driveLabel_ForceLimit i) (ARRAY_COUNT (D6Joint.driveLabel_ForceLimit i)),
     SerializeStream.Key (D6Joint.driveLabel_Acceleration i) (ARRAY_COUNT (D6Joint.driveLabel_Acceleration i))])
  ++ ["LimitLinear.Extent", "LimitLinear.Restitution", "LimitLinear.ContactDist",
      "LimitLinear.Stiffness", "LimitLinear.Damping",
      "LimitTwist.Lower", "LimitTwist.Upper", "LimitTwist.Restitution", "LimitTwist.ContactDist",
      "LimitTwist.Stiffness", "LimitTwist.Damping",
      "LimitSwing.YLimitAngle", "LimitSwing.ZLimitAngle", "LimitSwing.Restitution",
      "LimitSwing.ContactDist", "LimitSwing.Stiffness", "LimitSwing.Damping"]

/-- Members, in order, that `D6Joint::Serialize` writes when there is no reference object. -/
def D6Joint.writtenMembers (c : D6Joint) : SerializeStream :=
  (D6Joint.indices.map fun i =>
    (SerializeStream.Key (D6Joint.motionLabel i) (ARRAY_COUNT (D6Joint.motionLabel i)),
      JsonValue.Int (c._motion i).toInt))
  ++ (D6Joint.indices.flatMap fun i =>
    [(SerializeStream.Key (D6Joint.driveLabel_Stiffness i) (ARRAY_COUNT (D6Joint.driveLabel_Stiffness i)),
        JsonValue.Float (c._drive i).Stiffness),
     (SerializeStream.Key (D6Joint.driveLabel_Damping i) (ARRAY_COUNT (D6Joint.driveLabel_Damping i)),
        JsonValue.Float (c._drive i).Damping),
     (SerializeStream.Key (D6Joint.driveLabel_ForceLimit i) (ARRAY_COUNT (D6Joint.driveLabel_ForceLimit i)),
        JsonValue.Float (c._drive i).ForceLimit),
     (SerializeStream.Key (D6Joint.driveLabel_Acceleration i) (ARRAY_COUNT (D6Joint.driveLabel_Acceleration i)),
        JsonValue.Bool (c._drive i).Acceleration)])
  ++ [("LimitLinear.Extent", .Float c._limitLinear.Extent),
      ("LimitLinear.Restitution", .Float c._limitLinear.Restitution),
      ("LimitLinear.ContactDist", .Float c._limitLinear.ContactDist),
      ("LimitLinear.Stiffness", .Float c._limitLinear.Spring.Stiffness),
      ("LimitLinear.Damping", .Float c._limitLinear.Spring.Damping),
      ("LimitTwist.Lower", .Float c._limitTwist.Lower),
      ("LimitTwist.Upper", .Float c._limitTwist.Upper),
      ("LimitTwist.Restitution", .Float c._limitTwist.Restitution),
      ("LimitTwist.ContactDist", .Float c._limitTwist.ContactDist),
      ("LimitTwist.Stiffness", .Float c._limitTwist.Spring.Stiffness),
      ("LimitTwist.Damping", .Float c._limitTwist.Spring.Damping),
      ("LimitSwing.YLimitAngle", .Float c._limitSwing.YLimitAngle),
      ("LimitSwing.ZLimitAngle", .Float c._limitSwing.ZLimitAngle),
      ("LimitSwing.Restitution", .Float c._limitSwing.Restitution),
      ("LimitSwing.ContactDist", .Float c._limitSwing.ContactDist),
      ("LimitSwing.Stiffness", .Float c._limitSwing.Spring.Stiffness),
      ("LimitSwing.Damping", .Float c._limitSwing.Spring.Damping)]

/-- Example in-class initial values for a D6 joint: every float `0.0f`, every flag false. -/
def exampleD6Init : D6JointInit :=
  { drive := ⟨F32.zero, F32.zero, F32.zero, false⟩,
    limitLinear := ⟨F32.zero, F32.zero, F32.zero, ⟨F32.zero, F32.zero⟩⟩,
    limitTwist := ⟨F32.zero, F32.zero, F32.zero, F32.zero, ⟨F32.zero, F32.zero⟩⟩,
    limitSwing := ⟨F32.zero, F32.zero, F32.zero, F32.zero, ⟨F32.zero, F32.zero⟩⟩ }

/-- Example in-class initial values for a hinge joint: every float `0.0f`, free spin off. -/
def exampleHingeInit : HingeJointInit :=
  { limit := ⟨F32.zero, F32.zero, F32.zero, F32.zero, ⟨F32.zero, F32.zero⟩⟩,
    drive := ⟨F32.zero, F32.zero, F32.zero, false⟩ }

/-- Example joint data: both anchors at the origin, actors 0 and 1. -/
def exampleData : JointData :=
  { Actor0 := 0, Actor1 := 1, Pos0 := Vector3.Zero, Rot0 := Quaternion.Identity,
    Pos1 := Vector3.Zero, Rot1 := Quaternion.Identity }

/-- A default-constructed D6 joint that has been given its native joint. -/
def exampleLiveD6 : D6Joint :=
  { D6Joint.ctor exampleD6Init with
    _joint := some (D6Joint.CreateJoint (fun x => x) (D6Joint.ctor exampleD6Init) exampleData) }

/-- A default-constructed hinge joint that has been given its native joint. -/
def exampleLiveHinge : HingeJoint :=
  { HingeJoint.ctor exampleHingeInit with
    _joint := some (HingeJoint.CreateJoint (fun x => x) (HingeJoint.ctor exampleHingeInit)
      exampleData) }


/-! ## Facts about float comparison and value equality -/

theorem F32_eq_symm (a b : F32) : F32.eq a b = F32.eq b a := by
  unfold F32.eq
  cases a.isNaN <;> cases b.isNaN <;> simp [eq_comm]

theorem F32_eq_trans {a b c : F32} (h1 : F32.eq a b = true) (h2 : F32.eq b c = true) :
    F32.eq a c = true := by
  unfold F32.eq at *
  simp only [Bool.and_eq_true, Bool.not_eq_true', decide_eq_true_eq] at *
  exact ⟨⟨h1.1.1, h2.1.2⟩, h1.2.trans h2.2⟩

theorem F32_eq_self_of_ge {a b : F32} (h : F32.ge a b = true) : F32.eq a a = true := by
  unfold F32.ge at h
  unfold F32.eq
  simp only [Bool.and_eq_true, Bool.not_eq_true', decide_eq_true_eq] at *
  exact ⟨⟨h.1.1, h.1.1⟩, trivial⟩

theorem D6JointDrive_eq_symm (a b : D6JointDrive) : D6JointDrive.eq a b = D6JointDrive.eq b a := by
  unfold D6JointDrive.eq
  rw [F32_eq_symm a.Stiffness, F32_eq_symm a.Damping, F32_eq_symm a.ForceLimit,
    Bool.beq_comm]

theorem D6JointDrive_eq_trans {a b c : D6JointDrive} (h1 : D6JointDrive.eq a b = true)
    (h2 : D6JointDrive.eq b c = true) : D6JointDrive.eq a c = true := by
  unfold D6JointDrive.eq at *
  simp only [Bool.and_eq_true, beq_iff_eq] at *
  exact ⟨⟨⟨F32_eq_trans h1.1.1.1 h2.1.1.1, F32_eq_trans h1.1.1.2 h2.1.1.2⟩,
    F32_eq_trans h1.1.2 h2.1.2⟩, h1.2.trans h2.2⟩

theorem D6JointDrive_eq_self_of_valid {p : D6JointDrive} (h : p.Valid) :
    D6JointDrive.eq p p = true := by
  unfold D6JointDrive.eq
  simp only [Bool.and_eq_true, beq_iff_eq]
  exact ⟨⟨⟨F32_eq_self_of_ge h.1, F32_eq_self_of_ge h.2.1⟩, F32_eq_self_of_ge h.2.2⟩, trivial⟩

theorem D6Joint_GetMotion_SetMotion (s : D6Joint) (a : D6JointAxis) (m : D6JointMotion) :
    (s.SetMotion a m).GetMotion a = m := by
  unfold D6Joint.SetMotion
  by_cases h : m = s.GetMotion a
  · simp [h]
  · simp only [h, if_false]
    cases hj : s._joint <;> simp [D6Joint.GetMotion]

theorem D6Joint_GetDrive_SetDrive (s : D6Joint) (d : D6JointDriveType) (p : D6JointDrive) (hp : p.Valid) :
    D6JointDrive.eq ((s.SetDrive d p).GetDrive d) p = true := by
  unfold D6Joint.SetDrive
  by_cases h : D6JointDrive.eq p (s.GetDrive d) = true
  · simp only [h, if_true]
    rw [D6JointDrive_eq_symm]; exact h
  · simp only [h]
    cases hj : s._joint <;> simp [D6Joint.GetDrive, D6JointDrive_eq_self_of_valid hp]


theorem SpringParameters_eq_symm (a b : SpringParameters) :
    SpringParameters.eq a b = SpringParameters.eq b a := by
  unfold SpringParameters.eq
  rw [F32_eq_symm a.Stiffness, F32_eq_symm a.Damping]

theorem SpringParameters_eq_trans {a b c : SpringParameters}
    (h1 : SpringParameters.eq a b = true) (h2 : SpringParameters.eq b c = true) :
    SpringParameters.eq a c = true := by
  unfold SpringParameters.eq at *
  simp only [Bool.and_eq_true] at *
  exact ⟨F32_eq_trans h1.1 h2.1, F32_eq_trans h1.2 h2.2⟩

theorem LimitLinear_eq_symm (a b : LimitLinear) : LimitLinear.eq a b = LimitLinear.eq b a := by
  unfold LimitLinear.eq
  rw [F32_eq_symm a.Extent, F32_eq_symm a.Restitution, F32_eq_symm a.ContactDist,
    SpringParameters_eq_symm a.Spring]

theorem LimitLinear_eq_trans {a b c : LimitLinear} (h1 : LimitLinear.eq a b = true)
    (h2 : LimitLinear.eq b c = true) : LimitLinear.eq a c = true := by
  unfold LimitLinear.eq at *
  simp only [Bool.and_eq_true] at *
  exact ⟨⟨⟨F32_eq_trans h1.1.1.1 h2.1.1.1, F32_eq_trans h1.1.1.2 h2.1.1.2⟩,
    F32_eq_trans h1.1.2 h2.1.2⟩, SpringParameters_eq_trans h1.2 h2.2⟩

theorem LimitAngularRange_eq_symm (a b : LimitAngularRange) :
    LimitAngularRange.eq a b = LimitAngularRange.eq b a := by
  unfold LimitAngularRange.eq
  rw [F32_eq_symm a.Lower, F32_eq_symm a.Upper, F32_eq_symm a.Restitution,
    F32_eq_symm a.ContactDist, SpringParameters_eq_symm a.Spring]

theorem LimitAngularRange_eq_trans {a b c : LimitAngularRange}
    (h1 : LimitAngularRange.eq a b = true) (h2 : LimitAngularRange.eq b c = true) :
    LimitAngularRange.eq a c = true := by
  unfold LimitAngularRange.eq at *
  simp only [Bool.and_eq_true] at *
  exact ⟨⟨⟨⟨F32_eq_trans h1.1.1.1.1 h2.1.1.1.1, F32_eq_trans h1.1.1.1.2 h2.1.1.1.2⟩,
    F32_eq_trans h1.1.1.2 h2.1.1.2⟩, F32_eq_trans h1.1.2 h2.1.2⟩,
    SpringParameters_eq_trans h1.2 h2.2⟩

theorem LimitConeRange_eq_symm (a b : LimitConeRange) :
    LimitConeRange.eq a b = LimitConeRange.eq b a := by
  unfold LimitConeRange.eq
  rw [F32_eq_symm a.YLimitAngle, F32_eq_symm a.ZLimitAngle, F32_eq_symm a.Restitution,
    F32_eq_symm a.ContactDist, SpringParameters_eq_symm a.Spring]

theorem LimitConeRange_eq_trans {a b c : LimitConeRange}
    (h1 : LimitConeRange.eq a b = true) (h2 : LimitConeRange.eq b c = true) :
    LimitConeRange.eq a c = true := by
  unfold LimitConeRange.eq at *
  simp only [Bool.and_eq_true] at *
  exact ⟨⟨⟨⟨F32_eq_trans h1.1.1.1.1 h2.1.1.1.1, F32_eq_trans h1.1.1.1.2 h2.1.1.1.2⟩,
    F32_eq_trans h1.1.1.2 h2.1.1.2⟩, F32_eq_trans h1.1.2 h2.1.2⟩,
    SpringParameters_eq_trans h1.2 h2.2⟩

theorem HingeJointDrive_eq_symm (a b : HingeJointDrive) :
    HingeJointDrive.eq a b = HingeJointDrive.eq b a := by
  unfold HingeJointDrive.eq
  rw [F32_eq_symm a.Velocity, F32_eq_symm a.ForceLimit, F32_eq_symm a.GearRatio,
    Bool.beq_comm]

theorem HingeJointDrive_eq_trans {a b c : HingeJointDrive}
    (h1 : HingeJointDrive.eq a b = true) (h2 : HingeJointDrive.eq b c = true) :
    HingeJointDrive.eq a c = true := by
  unfold HingeJointDrive.eq at *
  simp only [Bool.and_eq_true, beq_iff_eq] at *
  exact ⟨⟨⟨F32_eq_trans h1.1.1.1 h2.1.1.1, F32_eq_trans h1.1.1.2 h2.1.1.2⟩,
    F32_eq_trans h1.1.2 h2.1.2⟩, h1.2.trans h2.2⟩

/-! ## Redundant assignments -/

theorem D6Joint_SetMotion_twice (s : D6Joint) (a : D6JointAxis) (m : D6JointMotion) :
    (s.SetMotion a m).SetMotion a m = s.SetMotion a m := by
  have h := D6Joint_GetMotion_SetMotion s a m
  generalize s.SetMotion a m = t at h
  simp [D6Joint.SetMotion, h]

theorem D6Joint_SetDrive_twice (s : D6Joint) (d : D6JointDriveType) (v1 v2 : D6JointDrive)
    (h : D6JointDrive.eq v2 v1 = true) : (s.SetDrive d v1).SetDrive d v2 = s.SetDrive d v1 := by
  have key : D6JointDrive.eq v2 ((s.SetDrive d v1).GetDrive d) = true := by
    unfold D6Joint.SetDrive
    by_cases h1 : D6JointDrive.eq v1 (s.GetDrive d) = true
    · simp only [h1, if_true]; exact D6JointDrive_eq_trans h h1
    · simp only [h1]
      cases hj : s._joint <;> simp [D6Joint.GetDrive, h]
  generalize s.SetDrive d v1 = t at key
  simp [D6Joint.SetDrive, key]

theorem D6Joint_SetLimitLinear_twice (s : D6Joint) (v1 v2 : LimitLinear)
    (h : LimitLinear.eq v2 v1 = true) :
    (s.SetLimitLinear v1).SetLimitLinear v2 = s.SetLimitLinear v1 := by
  have key : LimitLinear.eq v2 (s.SetLimitLinear v1)._limitLinear = true := by
    unfold D6Joint.SetLimitLinear
    by_cases h1 : LimitLinear.eq v1 s._limitLinear = true
    · simp only [h1, if_true]; exact LimitLinear_eq_trans h h1
    · simp only [h1]
      cases hj : s._joint <;> simp [h]
  generalize s.SetLimitLinear v1 = t at key
  simp [D6Joint.SetLimitLinear, key]

theorem D6Joint_SetLimitTwist_twice (toRad : F32 → F32) (s : D6Joint) (v1 v2 : LimitAngularRange)
    (h : LimitAngularRange.eq v2 v1 = true) :
    (s.SetLimitTwist toRad v1).SetLimitTwist toRad v2 = s.SetLimitTwist toRad v1 := by
  have key : LimitAngularRange.eq v2 (s.SetLimitTwist toRad v1)._limitTwist = true := by
    unfold D6Joint.SetLimitTwist
    by_cases h1 : LimitAngularRange.eq v1 s._limitTwist = true
    · simp only [h1, if_true]; exact LimitAngularRange_eq_trans h h1
    · simp only [h1]
      cases hj : s._joint <;> simp [h]
  generalize s.SetLimitTwist toRad v1 = t at key
  simp [D6Joint.SetLimitTwist, key]

theorem D6Joint_SetLimitSwing_twice (toRad : F32 → F32) (s : D6Joint) (v1 v2 : LimitConeRange)
    (h : LimitConeRange.eq v2 v1 = true) :
    (s.SetLimitSwing toRad v1).SetLimitSwing toRad v2 = s.SetLimitSwing toRad v1 := by
  have key : LimitConeRange.eq v2 (s.SetLimitSwing toRad v1)._limitSwing = true := by
    unfold D6Joint.SetLimitSwing
    by_cases h1 : LimitConeRange.eq v1 s._limitSwing = true
    · simp only [h1, if_true]; exact LimitConeRange_eq_trans h h1
    · simp only [h1]
      cases hj : s._joint <;> simp [h]
  generalize s.SetLimitSwing toRad v1 = t at key
  simp [D6Joint.SetLimitSwing, key]

theorem HingeJoint_SetFlags_twice (s : HingeJoint) (v : HingeJointFlag) :
    (s.SetFlags v).SetFlags v = s.SetFlags v := by
  have key : (s.SetFlags v)._flags = v := by
    unfold HingeJoint.SetFlags
    by_cases h1 : s._flags = v
    · simp [h1]
    · simp only [h1, if_false]
      cases hj : s._joint <;> simp
  generalize s.SetFlags v = t at key
  simp [HingeJoint.SetFlags, key]

theorem HingeJoint_SetLimit_twice (toRad : F32 → F32) (s : HingeJoint) (v1 v2 : LimitAngularRange)
    (h : LimitAngularRange.eq v2 v1 = true) :
    (s.SetLimit toRad v1).SetLimit toRad v2 = s.SetLimit toRad v1 := by
  have h' : LimitAngularRange.eq v1 v2 = true := by rw [LimitAngularRange_eq_symm]; exact h
  have key : LimitAngularRange.eq (s.SetLimit toRad v1)._limit v2 = true := by
    unfold HingeJoint.SetLimit
    by_cases h1 : LimitAngularRange.eq s._limit v1 = true
    · simp only [h1, if_true]; exact LimitAngularRange_eq_trans h1 h'
    · simp only [h1]
      cases hj : s._joint <;> simp [h']
  generalize s.SetLimit toRad v1 = t at key
  simp [HingeJoint.SetLimit, key]

theorem HingeJoint_SetDrive_twice (s : HingeJoint) (v1 v2 : HingeJointDrive)
    (h : HingeJointDrive.eq v2 v1 = true) :
    (s.SetDrive v1).SetDrive v2 = s.SetDrive v1 := by
  have h' : HingeJointDrive.eq v1 v2 = true := by rw [HingeJointDrive_eq_symm]; exact h
  have key : HingeJointDrive.eq (s.SetDrive v1)._drive v2 = true := by
    unfold HingeJoint.SetDrive
    by_cases h1 : HingeJointDrive.eq s._drive v1 = true
    · simp only [h1, if_true]; exact HingeJointDrive_eq_trans h1 h'
    · simp only [h1]
      cases hj : s._joint <;> simp [h']
  generalize s.SetDrive v1 = t at key
  simp [HingeJoint.SetDrive, key]


/-! ## The document written without a reference object -/

theorem DeserializeStream_FindMember_eq_get (stream : DeserializeStream) (name : String) :
    DeserializeStream.FindMember stream name
      = (stream.get? ((stream.map Prod.fst).indexOf name)).map Prod.snd := by
  induction stream with
  | nil => rfl
  | cons m rest ih =>
    unfold DeserializeStream.FindMember at *
    by_cases h : m.1 = name
    · simp [List.find?_cons, h, List.indexOf_cons]
    · have h2 : (m.1 == name) = false := by simpa using h
      simp only [List.find?_cons, h2, List.map_cons, List.indexOf_cons, cond_false,
        List.get?_cons_succ]
      exact ih

theorem DeserializeStream_FindMember_eq_none (stream : DeserializeStream) (name : String)
    (h : name ∉ stream.map Prod.fst) : DeserializeStream.FindMember stream name = none := by
  rw [DeserializeStream_FindMember_eq_get, List.indexOf_eq_length.2 h]
  simp

theorem D6Joint_Serialize_none (c : D6Joint) (stream : SerializeStream) :
    D6Joint.Serialize c stream none = stream ++ D6Joint.writtenMembers c := by
  simp only [D6Joint.Serialize, D6Joint.writtenMembers, D6Joint.indices, List.foldl_cons,
    List.foldl_nil, D6Joint.serializeMotion, D6Joint.serializeDrive, Option.all_none, if_true,
    SERIALIZE_MEMBER_Float, SerializeStream.write, Option.map_none', List.map_cons, List.map_nil,
    List.flatMap_cons, List.flatMap_nil, List.append_assoc, List.cons_append, List.nil_append,
    List.append_nil]

theorem D6Joint_writtenMembers_keys (c : D6Joint) :
    (D6Joint.writtenMembers c).map Prod.fst = D6Joint.writtenKeys := by
  simp only [D6Joint.writtenMembers, D6Joint.writtenKeys, D6Joint.indices, List.map_cons,
    List.map_nil, List.flatMap_cons, List.flatMap_nil, List.map_append, List.append_assoc,
    List.cons_append, List.nil_append, List.append_nil]

set_option maxHeartbeats 1000000 in
theorem D6Joint_labels_not_written (i : Fin 6) :
    cString (D6Joint.motionLabel i) ∉ D6Joint.writtenKeys
    ∧ cString (D6Joint.driveLabel_Stiffness i) ∉ D6Joint.writtenKeys
    ∧ cString (D6Joint.driveLabel_Damping i) ∉ D6Joint.writtenKeys
    ∧ cString (D6Joint.driveLabel_ForceLimit i) ∉ D6Joint.writtenKeys
    ∧ cString (D6Joint.driveLabel_Acceleration i) ∉ D6Joint.writtenKeys := by
  revert i
  decide

theorem D6Joint_deserializeMotion_written (c s : D6Joint) (i : Fin 6) :
    D6Joint.deserializeMotion (D6Joint.writtenMembers c) s i = s := by
  have h := DeserializeStream_FindMember_eq_none (D6Joint.writtenMembers c)
    (cString (D6Joint.motionLabel i))
    (by rw [D6Joint_writtenMembers_keys]; exact (D6Joint_labels_not_written i).1)
  simp [D6Joint.deserializeMotion, JsonTools.GetEnum, h]

theorem D6Joint_deserializeDrive_written (c s : D6Joint) (i : Fin 6) :
    D6Joint.deserializeDrive (D6Joint.writtenMembers c) s i = s := by
  have hk := D6Joint_labels_not_written i
  have h1 := DeserializeStream_FindMember_eq_none (D6Joint.writtenMembers c)
    (cString (D6Joint.driveLabel_Stiffness i)) (by rw [D6Joint_writtenMembers_keys]; exact hk.2.1)
  have h2 := DeserializeStream_FindMember_eq_none (D6Joint.writtenMembers c)
    (cString (D6Joint.driveLabel_Damping i)) (by rw [D6Joint_writtenMembers_keys]; exact hk.2.2.1)
  have h3 := DeserializeStream_FindMember_eq_none (D6Joint.writtenMembers c)
    (cString (D6Joint.driveLabel_ForceLimit i))
    (by rw [D6Joint_writtenMembers_keys]; exact hk.2.2.2.1)
  have h4 := DeserializeStream_FindMember_eq_none (D6Joint.writtenMembers c)
    (cString (D6Joint.driveLabel_Acceleration i))
    (by rw [D6Joint_writtenMembers_keys]; exact hk.2.2.2.2)
  simp [D6Joint.deserializeDrive, JsonTools.GetFloat, JsonTools.GetBool, h1, h2, h3, h4]

theorem D6Joint_GetFloat_written (c : D6Joint) (result v : F32) (name : String) (n : Nat)
    (hn : D6Joint.writtenKeys.indexOf (cString name.toList) = n)
    (hv : ((D6Joint.writtenMembers c).get? n).map Prod.snd = some (JsonValue.Float v)) :
    JsonTools.GetFloat result (D6Joint.writtenMembers c) name.toList = v := by
  unfold JsonTools.GetFloat
  rw [DeserializeStream_FindMember_eq_get, D6Joint_writtenMembers_keys, hn, hv]

theorem D6Joint_foldl_fixed {α : Type} (f : α → Fin 6 → α) (h : ∀ s i, f s i = s)
    (l : List (Fin 6)) (s : α) : l.foldl f s = s := by
  induction l with
  | nil => rfl
  | cons i l ih => simp [List.foldl_cons, h, ih]

/-- Reading back what `Serialize` wrote without a reference object: the three limits are those
of the object written; the motions and drives of the object read into are left as they were. -/
theorem D6Joint_Deserialize_written (t c : D6Joint) :
    D6Joint.Deserialize t (D6Joint.writtenMembers c)
      = { t with _limitLinear := c._limitLinear, _limitTwist := c._limitTwist,
                 _limitSwing := c._limitSwing } := by
  have e1 := fun r => D6Joint_GetFloat_written c r _ "LimitLinear.Extent" 30 (by decide) rfl
  have e2 := fun r => D6Joint_GetFloat_written c r _ "LimitLinear.Restitution" 31 (by decide) rfl
  have e3 := fun r => D6Joint_GetFloat_written c r _ "LimitLinear.ContactDist" 32 (by decide) rfl
  have e4 := fun r => D6Joint_GetFloat_written c r _ "LimitLinear.Stiffness" 33 (by decide) rfl
  have e5 := fun r => D6Joint_GetFloat_written c r _ "LimitLinear.Damping" 34 (by decide) rfl
  have e6 := fun r => D6Joint_GetFloat_written c r _ "LimitTwist.Lower" 35 (by decide) rfl
  have e7 := fun r => D6Joint_GetFloat_written c r _ "LimitTwist.Upper" 36 (by decide) rfl
  have e8 := fun r => D6Joint_GetFloat_written c r _ "LimitTwist.Restitution" 37 (by decide) rfl
  have e9 := fun r => D6Joint_GetFloat_written c r _ "LimitTwist.ContactDist" 38 (by decide) rfl
  have e10 := fun r => D6Joint_GetFloat_written c r _ "LimitTwist.Stiffness" 39 (by decide) rfl
  have e11 := fun r => D6Joint_GetFloat_written c r _ "LimitTwist.Damping" 40 (by decide) rfl
  have e12 := fun r => D6Joint_GetFloat_written c r _ "LimitSwing.YLimitAngle" 41 (by decide) rfl
  have e13 := fun r => D6Joint_GetFloat_written c r _ "LimitSwing.ZLimitAngle" 42 (by decide) rfl
  have e14 := fun r => D6Joint_GetFloat_written c r _ "LimitSwing.Restitution" 43 (by decide) rfl
  have e15 := fun r => D6Joint_GetFloat_written c r _ "LimitSwing.ContactDist" 44 (by decide) rfl
  have e16 := fun r => D6Joint_GetFloat_written c r _ "LimitSwing.Stiffness" 45 (by decide) rfl
  have e17 := fun r => D6Joint_GetFloat_written c r _ "LimitSwing.Damping" 46 (by decide) rfl
  simp only [D6Joint.Deserialize,
    D6Joint_foldl_fixed _ (D6Joint_deserializeMotion_written c),
    D6Joint_foldl_fixed _ (D6Joint_deserializeDrive_written c),
    e1, e2, e3, e4, e5, e6, e7, e8, e9, e10, e11, e12, e13, e14, e15, e16, e17]


/-- A float compares equal to itself exactly when it is not NaN. -/
theorem F32_eq_self (a : F32) : F32.eq a a = !a.isNaN := by
  unfold F32.eq
  cases a.isNaN <;> simp

theorem D6Joint_Serialize_same (s o : D6Joint) (stream : SerializeStream)
    (h : D6Joint.SameConfig s o) : D6Joint.Serialize s stream (some o) = stream := by
  obtain ⟨hm, hd, hl, ht, hs⟩ := h
  simp only [LimitLinear.eq, LimitAngularRange.eq, LimitConeRange.eq, SpringParameters.eq,
    Bool.and_eq_true] at hl ht hs
  have hd2 : ∀ i, F32.eq (s._drive i).Stiffness (o._drive i).Stiffness = true
      ∧ F32.eq (s._drive i).Damping (o._drive i).Damping = true
      ∧ F32.eq (s._drive i).ForceLimit (o._drive i).ForceLimit = true
      ∧ (s._drive i).Acceleration = (o._drive i).Acceleration := by
    intro i
    have := hd i
    simp only [D6JointDrive.eq, Bool.and_eq_true, beq_iff_eq] at this
    exact ⟨this.1.1.1, this.1.1.2, this.1.2, this.2⟩
  have m : ∀ st i, D6Joint.serializeMotion s (some o) st i = st := by
    intro st i
    simp [D6Joint.serializeMotion, hm i]
  have d : ∀ st i, D6Joint.serializeDrive s (some o) st i = st := by
    intro st i
    obtain ⟨a, b, c, e⟩ := hd2 i
    simp [D6Joint.serializeDrive, F32.ne, a, b, c, e]
  simp only [D6Joint.Serialize, D6Joint_foldl_fixed _ m, D6Joint_foldl_fixed _ d]
  simp [SERIALIZE_MEMBER_Float, F32.ne, hl, ht, hs]

theorem HingeJoint_Serialize_same (s o : HingeJoint) (stream : SerializeStream)
    (h : HingeJoint.SameConfig s o) : HingeJoint.Serialize s stream (some o) = stream := by
  obtain ⟨hf, hl, hd⟩ := h
  simp only [LimitAngularRange.eq, HingeJointDrive.eq, SpringParameters.eq,
    Bool.and_eq_true, beq_iff_eq] at hl hd
  simp [HingeJoint.Serialize, SERIALIZE_MEMBER_Float, SERIALIZE_MEMBER_Enum,
    SERIALIZE_MEMBER_Bool, F32.ne, hf, hl, hd]

theorem Math_Max_not_lt (a b : F32) : F32.lt (Math.Max a b) b = false := by
  unfold Math.Max F32.lt
  by_cases h : F32.gt a b = true
  · simp only [h, if_true]
    unfold F32.gt at *
    simp only [Bool.and_eq_true, Bool.not_eq_true', decide_eq_true_eq] at h
    simp [h.1.1, h.1.2]
    omega
  · simp only [h]
    unfold F32.gt
    simp

theorem D6Joint_CreateJoint_calls (toRad : F32 → F32) (s : D6Joint) (data : JointData) :
    (D6Joint.CreateJoint toRad s data).calls =
      (D6Joint.indices.map fun i => PxD6Call.setMotion i (s._motion i))
      ++ (D6Joint.indices.map fun i => PxD6Call.setDrive i (D6Joint.toPxDrive (s._drive i)))
      ++ [PxD6Call.setDistanceLimit
            { value := Math.Max s._limitLinear.Extent F32.c0_01,
              contactDistance := s._limitLinear.ContactDist,
              stiffness := s._limitLinear.Spring.Stiffness,
              damping := s._limitLinear.Spring.Damping,
              restitution := s._limitLinear.Restitution },
          PxD6Call.setTwistLimit
            { lower := toRad s._limitTwist.Lower, upper := toRad s._limitTwist.Upper,
              contactDistance := s._limitTwist.ContactDist,
              stiffness := s._limitTwist.Spring.Stiffness,
              damping := s._limitTwist.Spring.Damping,
              restitution := s._limitTwist.Restitution },
          PxD6Call.setSwingLimit
            { yAngle := toRad s._limitSwing.YLimitAngle, zAngle := toRad s._limitSwing.ZLimitAngle,
              contactDistance := s._limitSwing.ContactDist,
              stiffness := s._limitSwing.Spring.Stiffness,
              damping := s._limitSwing.Spring.Damping,
              restitution := s._limitSwing.Restitution }] := by
  rfl

theorem D6Joint_SetMotion_once (s : D6Joint) (a : D6JointAxis) (m : D6JointMotion)
    (j : PxD6Joint) (hj : s._joint = some j) (hm : s.GetMotion a ≠ m) :
    ((s.SetMotion a m).SetMotion a m)._joint
      = some { j with calls := j.calls ++ [PxD6Call.setMotion a.toIndex m] } := by
  rw [D6Joint_SetMotion_twice]
  have hm2 : ¬ m = s.GetMotion a := fun e => hm e.symm
  simp [D6Joint.SetMotion, hm2, hj, PxD6Joint.setMotion, PxD6Joint.record]

/-! ## Properties of the specification -/

/-- C1: for every D6Joint state, live or not, every axis `a` and every motion mode `m`, after
`SetMotion(a, m)` the getter `GetMotion(a)` returns `m`. -/
theorem C1_SetMotion_then_GetMotion (s : D6Joint) (a : D6JointAxis) (m : D6JointMotion) :
    (s.SetMotion a m).GetMotion a = m :=
  D6Joint_GetMotion_SetMotion s a m

/-- C2: for every D6Joint state, live or not, every drive channel `d` and every valid drive `p`
(Stiffness, Damping and ForceLimit `>= 0`, any Acceleration flag), after `SetDrive(d, p)` the
getter `GetDrive(d)` equals `p` (`GetDrive(d) == p`). -/
theorem C2_SetDrive_then_GetDrive (s : D6Joint) (d : D6JointDriveType) (p : D6JointDrive)
    (hp : p.Valid) : D6JointDrive.eq ((s.SetDrive d p).GetDrive d) p = true :=
  D6Joint_GetDrive_SetDrive s d p hp

theorem C2_witness :
    D6JointDrive.Valid ⟨F32.c100, F32.one, F32.c90, true⟩
    ∧ D6JointDrive.eq
        ((exampleLiveD6.SetDrive 4 ⟨F32.c100, F32.one, F32.c90, true⟩).GetDrive 4)
        ⟨F32.c100, F32.one, F32.c90, true⟩ = true :=
  ⟨by decide, C2_SetDrive_then_GetDrive exampleLiveD6 4 ⟨F32.c100, F32.one, F32.c90, true⟩
    (by decide)⟩

/-- C3, as amended: for every configuration setter of both joints and every joint state, a call
with a value that compares equal (the setters' own `==`) to the stored one leaves the object as
it is, native joint and its call record included (nothing stored changes, nothing is
forwarded); hence a second call in a row with a value that compares equal to the first's (the
same value again, unless one of its float fields is NaN) changes and forwards nothing, and
`SetMotion` called twice with a new mode on a live joint makes exactly one `setMotion` call in
total. -/
theorem C3_redundant_set_is_skipped (toRad : F32 → F32) (d6 : D6Joint) (hinge : HingeJoint) :
    -- a value equal to the stored one: the object, its native joint included, is left as it is
    (∀ a m, m = d6.GetMotion a → d6.SetMotion a m = d6)
    ∧ (∀ d v, D6JointDrive.eq v (d6.GetDrive d) = true → d6.SetDrive d v = d6)
    ∧ (∀ v, LimitLinear.eq v d6._limitLinear = true → d6.SetLimitLinear v = d6)
    ∧ (∀ v, LimitAngularRange.eq v d6._limitTwist = true → d6.SetLimitTwist toRad v = d6)
    ∧ (∀ v, LimitConeRange.eq v d6._limitSwing = true → d6.SetLimitSwing toRad v = d6)
    ∧ (∀ v, hinge._flags = v → hinge.SetFlags v = hinge)
    ∧ (∀ v, LimitAngularRange.eq hinge._limit v = true → hinge.SetLimit toRad v = hinge)
    ∧ (∀ v, HingeJointDrive.eq hinge._drive v = true → hinge.SetDrive v = hinge)
    -- twice in a row with the same value: the second call changes nothing and forwards nothing
    ∧ (∀ a m, (d6.SetMotion a m).SetMotion a m = d6.SetMotion a m)
    ∧ (∀ d v v2, D6JointDrive.eq v2 v = true →
        (d6.SetDrive d v).SetDrive d v2 = d6.SetDrive d v)
    ∧ (∀ v v2, LimitLinear.eq v2 v = true →
        (d6.SetLimitLinear v).SetLimitLinear v2 = d6.SetLimitLinear v)
    ∧ (∀ v v2, LimitAngularRange.eq v2 v = true →
        (d6.SetLimitTwist toRad v).SetLimitTwist toRad v2 = d6.SetLimitTwist toRad v)
    ∧ (∀ v v2, LimitConeRange.eq v2 v = true →
        (d6.SetLimitSwing toRad v).SetLimitSwing toRad v2 = d6.SetLimitSwing toRad v)
    ∧ (∀ v, (hinge.SetFlags v).SetFlags v = hinge.SetFlags v)
    ∧ (∀ v v2, LimitAngularRange.eq v2 v = true →
        (hinge.SetLimit toRad v).SetLimit toRad v2 = hinge.SetLimit toRad v)
    ∧ (∀ v v2, HingeJointDrive.eq v2 v = true →
        (hinge.SetDrive v).SetDrive v2 = hinge.SetDrive v)
    -- SetMotion twice with a new mode on a live joint: one setMotion call in total
    ∧ (∀ a m j, d6._joint = some j → d6.GetMotion a ≠ m →
        ((d6.SetMotion a m).SetMotion a m)._joint
          = some { j with calls := j.calls ++ [PxD6Call.setMotion a.toIndex m] }) := by
  refine ⟨?_, ?_, ?_, ?_, ?_, ?_, ?_, ?_, D6Joint_SetMotion_twice d6,
    D6Joint_SetDrive_twice d6, D6Joint_SetLimitLinear_twice d6,
    D6Joint_SetLimitTwist_twice toRad d6, D6Joint_SetLimitSwing_twice toRad d6,
    HingeJoint_SetFlags_twice hinge, HingeJoint_SetLimit_twice toRad hinge,
    HingeJoint_SetDrive_twice hinge, D6Joint_SetMotion_once d6⟩
  · intro a m h; simp [D6Joint.SetMotion, h]
  · intro d v h; simp [D6Joint.SetDrive, h]
  · intro v h; simp [D6Joint.SetLimitLinear, h]
  · intro v h; simp [D6Joint.SetLimitTwist, h]
  · intro v h; simp [D6Joint.SetLimitSwing, h]
  · intro v h; simp [HingeJoint.SetFlags, h]
  · intro v h; simp [HingeJoint.SetLimit, h]
  · intro v h; simp [HingeJoint.SetDrive, h]

theorem C3_witness :
    -- the hypotheses hold at the examples
    D6JointDrive.eq ⟨F32.negZero, F32.zero, F32.zero, false⟩ (exampleLiveD6.GetDrive 0) = true
    ∧ HingeJointDrive.eq ⟨F32.one, F32.one, F32.one, true⟩ ⟨F32.one, F32.one, F32.one, true⟩ = true
    ∧ exampleLiveD6.GetMotion D6JointAxis.Twist ≠ D6JointMotion.Locked
    -- and so do the conclusions
    ∧ exampleLiveD6.SetDrive 0 ⟨F32.negZero, F32.zero, F32.zero, false⟩ = exampleLiveD6
    ∧ (exampleLiveHinge.SetDrive ⟨F32.one, F32.one, F32.one, true⟩).SetDrive
        ⟨F32.one, F32.one, F32.one, true⟩
        = exampleLiveHinge.SetDrive ⟨F32.one, F32.one, F32.one, true⟩
    ∧ ((exampleLiveD6.SetMotion D6JointAxis.Twist D6JointMotion.Locked).SetMotion
        D6JointAxis.Twist D6JointMotion.Locked)._joint
        = some { D6Joint.CreateJoint (fun x => x) (D6Joint.ctor exampleD6Init) exampleData with
            calls := (D6Joint.CreateJoint (fun x => x) (D6Joint.ctor exampleD6Init)
                exampleData).calls
              ++ [PxD6Call.setMotion 3 D6JointMotion.Locked] } :=
  ⟨by decide, by decide, by decide,
    (C3_redundant_set_is_skipped (fun x => x) exampleLiveD6 exampleLiveHinge).2.1 0 _ (by decide),
    (C3_redundant_set_is_skipped (fun x => x) exampleLiveD6 exampleLiveHinge).2.2.2.2.2.2.2.2.2.2.2.2.2.2.2.1
      _ _ (by decide),
    (C3_redundant_set_is_skipped (fun x => x) exampleLiveD6 exampleLiveHinge).2.2.2.2.2.2.2.2.2.2.2.2.2.2.2.2
      D6JointAxis.Twist D6JointMotion.Locked _ rfl (by decide)⟩

/-- C3 as stated fails for a value that does not compare equal to itself: on a live D6 joint,
`SetDrive(0, p)` with `p.Stiffness` NaN stores `p`; the same call again finds `p == GetDrive(0)`
false although the stored drive is `p`, and forwards a second `setDrive`. -/
theorem C3_counterexample :
    D6JointDrive.eq ⟨F32.nan, F32.zero, F32.zero, false⟩ ⟨F32.nan, F32.zero, F32.zero, false⟩
      = false
    ∧ (exampleLiveD6.SetDrive 0 ⟨F32.nan, F32.zero, F32.zero, false⟩).GetDrive 0
      = ⟨F32.nan, F32.zero, F32.zero, false⟩
    ∧ (exampleLiveD6.SetDrive 0 ⟨F32.nan, F32.zero, F32.zero, false⟩)._joint.map
        (fun j => j.calls.drop 15)
      = some [PxD6Call.setDrive 0
          { stiffness := F32.nan, damping := F32.zero, forceLimit := F32.zero, flags := 0 }]
    ∧ ((exampleLiveD6.SetDrive 0 ⟨F32.nan, F32.zero, F32.zero, false⟩).SetDrive 0
        ⟨F32.nan, F32.zero, F32.zero, false⟩)._joint.map (fun j => j.calls.drop 15)
      = some [PxD6Call.setDrive 0
          { stiffness := F32.nan, damping := F32.zero, forceLimit := F32.zero, flags := 0 },
        PxD6Call.setDrive 0
          { stiffness := F32.nan, damping := F32.zero, forceLimit := F32.zero, flags := 0 }] := by
  decide

/-- C4: with no live native joint (`_joint` null) no operation of either joint makes a native
call or fails: every configuration setter only updates the stored value (the stored one is kept
when the new one compares equal) and `_joint` stays null; `SetDrivePosition`,
`SetDriveRotation`, `SetDriveLinearVelocity` and `SetDriveAngularVelocity` change nothing;
`GetDrivePosition`, `GetDriveLinearVelocity` and `GetDriveAngularVelocity` return the zero
vector, `GetDriveRotation` the identity quaternion, and `GetCurrentTwist`,
`GetCurrentSwingYAngle`, `GetCurrentSwingZAngle`, `GetCurrentAngle` and `GetCurrentVelocity`
return 0. -/
theorem C4_no_native_joint (toRad : F32 → F32) (d6 : D6Joint) (hinge : HingeJoint)
    (h6 : d6._joint = none) (hh : hinge._joint = none) :
    -- D6Joint setters: only the stored value changes, and there is still no native joint
    (∀ a m, d6.SetMotion a m
        = { d6 with _motion := Function.update d6._motion a.toIndex m, _joint := none })
    ∧ (∀ d v, d6.SetDrive d v
        = { d6 with
            _drive := Function.update d6._drive d
              (if D6JointDrive.eq v (d6._drive d) then d6._drive d else v),
            _joint := none })
    ∧ (∀ v, d6.SetLimitLinear v
        = { d6 with
            _limitLinear := if LimitLinear.eq v d6._limitLinear then d6._limitLinear else v,
            _joint := none })
    ∧ (∀ v, d6.SetLimitTwist toRad v
        = { d6 with
            _limitTwist := if LimitAngularRange.eq v d6._limitTwist then d6._limitTwist else v,
            _joint := none })
    ∧ (∀ v, d6.SetLimitSwing toRad v
        = { d6 with
            _limitSwing := if LimitConeRange.eq v d6._limitSwing then d6._limitSwing else v,
            _joint := none })
    -- D6Joint drive targets: nothing changes
    ∧ (∀ v, d6.SetDrivePosition v = d6)
    ∧ (∀ v, d6.SetDriveRotation v = d6)
    ∧ (∀ v, d6.SetDriveLinearVelocity v = d6)
    ∧ (∀ v, d6.SetDriveAngularVelocity v = d6)
    -- D6Joint getters: neutral values
    ∧ d6.GetDrivePosition = Vector3.Zero
    ∧ d6.GetDriveRotation = Quaternion.Identity
    ∧ d6.GetDriveLinearVelocity = Vector3.Zero
    ∧ d6.GetDriveAngularVelocity = Vector3.Zero
    ∧ d6.GetCurrentTwist = F32.zero
    ∧ d6.GetCurrentSwingYAngle = F32.zero
    ∧ d6.GetCurrentSwingZAngle = F32.zero
    -- HingeJoint setters
    ∧ (∀ v, hinge.SetFlags v = { hinge with _flags := v, _joint := none })
    ∧ (∀ v, hinge.SetLimit toRad v
        = { hinge with
            _limit := if LimitAngularRange.eq hinge._limit v then hinge._limit else v,
            _joint := none })
    ∧ (∀ v, hinge.SetDrive v
        = { hinge with
            _drive := if HingeJointDrive.eq hinge._drive v then hinge._drive else v,
            _joint := none })
    -- HingeJoint getters
    ∧ hinge.GetCurrentAngle = F32.zero
    ∧ hinge.GetCurrentVelocity = F32.zero := by
  cases d6 with
  | mk mo dr ll lt ls jo =>
  cases hinge with
  | mk fl li dv hj =>
  simp only at h6 hh
  subst h6 hh
  refine ⟨?_, ?_, ?_, ?_, ?_, ?_, ?_, ?_, ?_, rfl, rfl, rfl, rfl, rfl, rfl, rfl, ?_, ?_, ?_,
    rfl, rfl⟩
  · intro a m
    by_cases h : m = mo a.toIndex
    · simp [D6Joint.SetMotion, D6Joint.GetMotion, h]
    · simp [D6Joint.SetMotion, D6Joint.GetMotion, h]
  · intro d v
    by_cases h : D6JointDrive.eq v (dr d) = true
    · simp [D6Joint.SetDrive, D6Joint.GetDrive, h]
    · simp [D6Joint.SetDrive, D6Joint.GetDrive, h]
  · intro v
    by_cases h : LimitLinear.eq v ll = true
    · simp [D6Joint.SetLimitLinear, h]
    · simp [D6Joint.SetLimitLinear, h]
  · intro v
    by_cases h : LimitAngularRange.eq v lt = true
    · simp [D6Joint.SetLimitTwist, h]
    · simp [D6Joint.SetLimitTwist, h]
  · intro v
    by_cases h : LimitConeRange.eq v ls = true
    · simp [D6Joint.SetLimitSwing, h]
    · simp [D6Joint.SetLimitSwing, h]
  · intro v; rfl
  · intro v; rfl
  · intro v; rfl
  · intro v; rfl
  · intro v
    by_cases h : fl = v
    · simp [HingeJoint.SetFlags, h]
    · simp [HingeJoint.SetFlags, h]
  · intro v
    by_cases h : LimitAngularRange.eq li v = true
    · simp [HingeJoint.SetLimit, h]
    · simp [HingeJoint.SetLimit, h]
  · intro v
    by_cases h : HingeJointDrive.eq dv v = true
    · simp [HingeJoint.SetDrive, h]
    · simp [HingeJoint.SetDrive, h]

theorem C4_witness :
    (D6Joint.ctor exampleD6Init)._joint = none
    ∧ (HingeJoint.ctor exampleHingeInit)._joint = none
    ∧ ((D6Joint.ctor exampleD6Init).SetLimitLinear
        ⟨F32.cNeg5, F32.zero, F32.zero, ⟨F32.zero, F32.zero⟩⟩)._limitLinear.Extent = F32.cNeg5
    ∧ ((D6Joint.ctor exampleD6Init).SetLimitLinear
        ⟨F32.cNeg5, F32.zero, F32.zero, ⟨F32.zero, F32.zero⟩⟩)._joint = none
    ∧ (D6Joint.ctor exampleD6Init).SetDrivePosition ⟨F32.one, F32.one, F32.one⟩
        = D6Joint.ctor exampleD6Init
    ∧ (D6Joint.ctor exampleD6Init).GetDriveRotation = Quaternion.Identity
    ∧ (HingeJoint.ctor exampleHingeInit).SetFlags 1
        = { HingeJoint.ctor exampleHingeInit with _flags := 1, _joint := none }
    ∧ (HingeJoint.ctor exampleHingeInit).GetCurrentAngle = F32.zero :=
  have h := C4_no_native_joint (fun x => x) (D6Joint.ctor exampleD6Init)
    (HingeJoint.ctor exampleHingeInit) rfl rfl
  ⟨rfl, rfl, by decide, by decide, h.2.2.2.2.2.1 _, h.2.2.2.2.2.2.2.2.2.2.1,
    h.2.2.2.2.2.2.2.2.2.2.2.2.2.2.2.2.1 1, h.2.2.2.2.2.2.2.2.2.2.2.2.2.2.2.2.2.2.2.1⟩

/-- C5, evaluated where it fails: `HingeJoint::CreateJoint` hands a stored drive velocity, force
limit and gear ratio of `-1.0f` to the native joint as they are (each is below 0, and
`Math::Max(-1, 0)` would be 0), although `HingeJoint::SetDrive` on a live joint clamps the same
values to 0; and `D6Joint::SetLimitLinear` on a live joint hands the extent `-5.0f` to the native
joint as it is (it is below `0.01f`, and `Math::Max(-5, 0.01)` would be `0.01f`). -/
theorem C5_unclamped_values_reach_native :
    -- HingeJoint: negative drive values stored while there is no native joint ...
    ((HingeJoint.ctor exampleHingeInit).SetDrive ⟨F32.cNeg1, F32.cNeg1, F32.cNeg1, false⟩)._drive
      = ⟨F32.cNeg1, F32.cNeg1, F32.cNeg1, false⟩
    -- ... are handed to the native joint by CreateJoint as they are
    ∧ (HingeJoint.CreateJoint (fun x => x)
        ((HingeJoint.ctor exampleHingeInit).SetDrive ⟨F32.cNeg1, F32.cNeg1, F32.cNeg1, false⟩)
        exampleData).calls
      = [PxRevoluteCall.setRevoluteJointFlags 3,
         PxRevoluteCall.setDriveVelocity F32.cNeg1,
         PxRevoluteCall.setDriveForceLimit F32.cNeg1,
         PxRevoluteCall.setDriveGearRatio F32.cNeg1,
         PxRevoluteCall.setLimit
           { lower := F32.cNeg90, upper := F32.c90, contactDistance := F32.zero,
             stiffness := F32.zero, damping := F32.zero, restitution := F32.zero }]
    ∧ F32.lt F32.cNeg1 F32.zero = true
    ∧ Math.Max F32.cNeg1 F32.zero = F32.zero
    -- while SetDrive on a live joint clamps them
    ∧ (exampleLiveHinge.SetDrive ⟨F32.cNeg1, F32.cNeg1, F32.cNeg1, false⟩)._joint.map
        (fun j => j.calls.drop 5)
      = some [PxRevoluteCall.setDriveVelocity F32.zero,
              PxRevoluteCall.setDriveForceLimit F32.zero,
              PxRevoluteCall.setDriveGearRatio F32.zero,
              PxRevoluteCall.setRevoluteJointFlag PxRevoluteJointFlag.eDRIVE_FREESPIN false]
    -- D6Joint: SetLimitLinear on a live joint hands the extent -5.0 over as it is
    ∧ (exampleLiveD6.SetLimitLinear ⟨F32.cNeg5, F32.zero, F32.zero, ⟨F32.zero, F32.zero⟩⟩)._joint.map
        (fun j => j.calls.drop 15)
      = some [PxD6Call.setLinearLimit
          { value := F32.cNeg5, contactDistance := F32.zero, stiffness := F32.zero,
            damping := F32.zero, restitution := F32.zero }]
    ∧ F32.lt F32.cNeg5 F32.c0_01 = true
    ∧ Math.Max F32.cNeg5 F32.c0_01 = F32.c0_01 := by
  decide

/-- C6: for every D6Joint configuration, `CreateJoint` makes, in this order, six `setMotion`
calls, six `setDrive` calls, one `setDistanceLimit`, one `setTwistLimit` and one `setSwingLimit`
call; the linear limit it hands over has extent `Math::Max(Extent, 0.01f)`, which is never below
`0.01f`, and the stored ContactDist, spring stiffness, spring damping and restitution unchanged;
with a stored extent of `-5.0f` the extent handed over is `0.01f`. `CreateJoint` only reads the
configuration. -/
theorem C6_CreateJoint_linear_limit (toRad : F32 → F32) (s : D6Joint) (data : JointData) :
    (D6Joint.CreateJoint toRad s data).calls =
      (D6Joint.indices.map fun i => PxD6Call.setMotion i (s._motion i))
      ++ (D6Joint.indices.map fun i => PxD6Call.setDrive i (D6Joint.toPxDrive (s._drive i)))
      ++ [PxD6Call.setDistanceLimit
            { value := Math.Max s._limitLinear.Extent F32.c0_01,
              contactDistance := s._limitLinear.ContactDist,
              stiffness := s._limitLinear.Spring.Stiffness,
              damping := s._limitLinear.Spring.Damping,
              restitution := s._limitLinear.Restitution },
          PxD6Call.setTwistLimit
            { lower := toRad s._limitTwist.Lower, upper := toRad s._limitTwist.Upper,
              contactDistance := s._limitTwist.ContactDist,
              stiffness := s._limitTwist.Spring.Stiffness,
              damping := s._limitTwist.Spring.Damping,
              restitution := s._limitTwist.Restitution },
          PxD6Call.setSwingLimit
            { yAngle := toRad s._limitSwing.YLimitAngle, zAngle := toRad s._limitSwing.ZLimitAngle,
              contactDistance := s._limitSwing.ContactDist,
              stiffness := s._limitSwing.Spring.Stiffness,
              damping := s._limitSwing.Spring.Damping,
              restitution := s._limitSwing.Restitution }]
    ∧ F32.lt (Math.Max s._limitLinear.Extent F32.c0_01) F32.c0_01 = false
    ∧ PxD6Call.setDistanceLimit
        { value := F32.c0_01,
          contactDistance := s._limitLinear.ContactDist,
          stiffness := s._limitLinear.Spring.Stiffness,
          damping := s._limitLinear.Spring.Damping,
          restitution := s._limitLinear.Restitution }
        ∈ (D6Joint.CreateJoint toRad
            { s with _limitLinear := { s._limitLinear with Extent := F32.cNeg5 } } data).calls := by
  refine ⟨D6Joint_CreateJoint_calls toRad s data, Math_Max_not_lt _ _, ?_⟩
  rw [D6Joint_CreateJoint_calls]
  have : Math.Max F32.cNeg5 F32.c0_01 = F32.c0_01 := by decide
  simp [this]

/-- C7, as amended: for every D6Joint and every HingeJoint, serializing against a reference
object whose configuration compares equal (`SameConfig`: equal motions and flags, and drives and
limits equal by `==`; the object itself or a copy of it, unless one of its float fields is NaN)
writes nothing: the stream is returned as it was, so no `Motion<i>`, `Drive<i>.*`,
`LimitLinear.*`, `LimitTwist.*` or `LimitSwing.*` member and none of `Flags`, `ContactDist`,
`Restitution`, `Stiffness`, `Damping`, `LowerLimit`, `UpperLimit`, `Velocity`, `ForceLimit`,
`GearRatio`, `FreeSpin` is emitted. -/
theorem C7_identical_reference_emits_nothing (d6 o6 : D6Joint) (hinge oh : HingeJoint)
    (stream : SerializeStream) (h6 : D6Joint.SameConfig d6 o6) (hh : HingeJoint.SameConfig hinge oh) :
    D6Joint.Serialize d6 stream (some o6) = stream
    ∧ HingeJoint.Serialize hinge stream (some oh) = stream :=
  ⟨D6Joint_Serialize_same d6 o6 stream h6, HingeJoint_Serialize_same hinge oh stream hh⟩

theorem C7_witness :
    D6Joint.SameConfig (D6Joint.ctor exampleD6Init) (D6Joint.ctor exampleD6Init)
    ∧ HingeJoint.SameConfig (HingeJoint.ctor exampleHingeInit) (HingeJoint.ctor exampleHingeInit)
    ∧ D6Joint.Serialize (D6Joint.ctor exampleD6Init) [] (some (D6Joint.ctor exampleD6Init)) = []
    ∧ HingeJoint.Serialize (HingeJoint.ctor exampleHingeInit) []
        (some (HingeJoint.ctor exampleHingeInit)) = [] :=
  ⟨by unfold D6Joint.SameConfig; decide, by unfold HingeJoint.SameConfig; decide,
    C7_identical_reference_emits_nothing _ _ _ _ []
      (by unfold D6Joint.SameConfig; decide) (by unfold HingeJoint.SameConfig; decide)⟩

/-- C7 as stated fails for a configuration holding NaN: a D6 joint whose drive 0 has
`Stiffness` NaN, serialized against itself, writes the `Drive0.Stiffness` member, because
`_drive[i].Stiffness != other->_drive[i].Stiffness` is true for NaN. -/
theorem C7_counterexample :
    ((D6Joint.ctor exampleD6Init).SetDrive 0 ⟨F32.nan, F32.zero, F32.zero, false⟩).GetDrive 0
      = ⟨F32.nan, F32.zero, F32.zero, false⟩
    ∧ D6Joint.Serialize
        ((D6Joint.ctor exampleD6Init).SetDrive 0 ⟨F32.nan, F32.zero, F32.zero, false⟩) []
        (some ((D6Joint.ctor exampleD6Init).SetDrive 0 ⟨F32.nan, F32.zero, F32.zero, false⟩))
      = [(SerializeStream.Key (D6Joint.driveLabel_Stiffness 0)
            (ARRAY_COUNT (D6Joint.driveLabel_Stiffness 0)), JsonValue.Float F32.nan)]
    ∧ D6Joint.Serialize
        ((D6Joint.ctor exampleD6Init).SetDrive 0 ⟨F32.nan, F32.zero, F32.zero, false⟩) []
        (some ((D6Joint.ctor exampleD6Init).SetDrive 0 ⟨F32.nan, F32.zero, F32.zero, false⟩))
      ≠ [] := by
  decide

/-- C9: for every HingeJoint state and every flags value `v` that agrees with the stored flags
on the Limit bit, after `SetFlags(v)` the stored Limit bit is unchanged, and on a live joint
every `setRevoluteJointFlag(eLIMIT_ENABLED, b)` the call forwards (it forwards none when `v` is
the stored value) has `b` equal to the limit-enabled state before the call. -/
theorem C9_SetFlags_keeps_limit_enabled (s : HingeJoint) (v : HingeJointFlag)
    (h : v &&& HingeJointFlag.Limit = s._flags &&& HingeJointFlag.Limit) :
    (s.SetFlags v)._flags &&& HingeJointFlag.Limit = s._flags &&& HingeJointFlag.Limit
    ∧ ∀ j, s._joint = some j →
        ∃ issued, (s.SetFlags v)._joint = some { j with calls := j.calls ++ issued }
          ∧ ∀ b, PxRevoluteCall.setRevoluteJointFlag PxRevoluteJointFlag.eLIMIT_ENABLED b ∈ issued →
              b = ((s._flags &&& HingeJointFlag.Limit) != 0) := by
  unfold HingeJoint.SetFlags
  by_cases hv : s._flags = v
  · simp only [hv, if_true, true_and]
    intro j hj
    exact ⟨[], by simp [hj], by simp⟩
  · simp only [hv, if_false]
    constructor
    · cases hj : s._joint <;> simp [h]
    · intro j hj
      refine ⟨[PxRevoluteCall.setRevoluteJointFlag PxRevoluteJointFlag.eLIMIT_ENABLED
                ((v &&& HingeJointFlag.Limit) != 0),
              PxRevoluteCall.setRevoluteJointFlag PxRevoluteJointFlag.eDRIVE_ENABLED
                ((v &&& HingeJointFlag.Drive) != 0)], ?_, ?_⟩
      · simp [hj, PxRevoluteJoint.setRevoluteJointFlag, PxRevoluteJoint.record]
      · intro b hb
        simp [PxRevoluteJointFlag.eLIMIT_ENABLED, PxRevoluteJointFlag.eDRIVE_ENABLED] at hb
        rw [hb, h]

theorem C9_witness :
    (7 : HingeJointFlag) &&& HingeJointFlag.Limit
      = exampleLiveHinge._flags &&& HingeJointFlag.Limit
    ∧ (exampleLiveHinge.SetFlags 7)._flags &&& HingeJointFlag.Limit = 1
    ∧ ((exampleLiveHinge._flags &&& HingeJointFlag.Limit) != 0) = true
    ∧ (exampleLiveHinge.SetFlags 7)._joint.map (fun j => j.calls.drop 5)
      = some [PxRevoluteCall.setRevoluteJointFlag PxRevoluteJointFlag.eLIMIT_ENABLED true,
              PxRevoluteCall.setRevoluteJointFlag PxRevoluteJointFlag.eDRIVE_ENABLED true] :=
  ⟨by decide, (C9_SetFlags_keeps_limit_enabled exampleLiveHinge 7 (by decide)).1, by decide,
    by decide⟩

/-- C10, evaluated where it fails: for every index `i` the key `D6Joint::Serialize` writes for
`Motion<i>`, `Drive<i>.Stiffness`, `Drive<i>.Damping`, `Drive<i>.ForceLimit` and
`Drive<i>.Acceleration` (the label array with length `ARRAY_COUNT`, terminating NULs included)
differs from the key `D6Joint::Deserialize` looks up (the label as a null-terminated string):
for `Motion0` these are the 8 characters `Motion0\0` against the 7 characters `Motion0`. So
after `Serialize` without a reference object and `Deserialize` into a default-constructed
D6Joint every motion is `Free` and every drive is the initial one, whatever was serialized; a
joint with axis X `Locked` comes back with axis X `Free`. -/
theorem C10_motion_and_drive_keys_never_found :
    (∀ i : Fin 6,
      SerializeStream.Key (D6Joint.motionLabel i) (ARRAY_COUNT (D6Joint.motionLabel i))
        ≠ cString (D6Joint.motionLabel i)
      ∧ SerializeStream.Key (D6Joint.driveLabel_Stiffness i)
          (ARRAY_COUNT (D6Joint.driveLabel_Stiffness i)) ≠ cString (D6Joint.driveLabel_Stiffness i)
      ∧ SerializeStream.Key (D6Joint.driveLabel_Damping i)
          (ARRAY_COUNT (D6Joint.driveLabel_Damping i)) ≠ cString (D6Joint.driveLabel_Damping i)
      ∧ SerializeStream.Key (D6Joint.driveLabel_ForceLimit i)
          (ARRAY_COUNT (D6Joint.driveLabel_ForceLimit i)) ≠ cString (D6Joint.driveLabel_ForceLimit i)
      ∧ SerializeStream.Key (D6Joint.driveLabel_Acceleration i)
          (ARRAY_COUNT (D6Joint.driveLabel_Acceleration i))
            ≠ cString (D6Joint.driveLabel_Acceleration i))
    ∧ SerializeStream.Key (D6Joint.motionLabel 0) (ARRAY_COUNT (D6Joint.motionLabel 0))
        = "Motion0\x00"
    ∧ cString (D6Joint.motionLabel 0) = "Motion0"
    ∧ (∀ (init : D6JointInit) (c : D6Joint) (i : Fin 6),
        (D6Joint.Deserialize (D6Joint.ctor init) (D6Joint.Serialize c [] none))._motion i
          = D6JointMotion.Free
        ∧ (D6Joint.Deserialize (D6Joint.ctor init) (D6Joint.Serialize c [] none))._drive i
          = init.drive)
    ∧ ((D6Joint.ctor exampleD6Init).SetMotion D6JointAxis.X D6JointMotion.Locked).GetMotion
        D6JointAxis.X = D6JointMotion.Locked
    ∧ (D6Joint.Deserialize (D6Joint.ctor exampleD6Init)
        (D6Joint.Serialize
          ((D6Joint.ctor exampleD6Init).SetMotion D6JointAxis.X D6JointMotion.Locked) [] none)
        ).GetMotion D6JointAxis.X = D6JointMotion.Free := by
  refine ⟨by decide, by decide, by decide, ?_, by decide, ?_⟩
  · intro init c i
    rw [D6Joint_Serialize_none, List.nil_append, D6Joint_Deserialize_written]
    exact ⟨rfl, rfl⟩
  · rw [D6Joint_Serialize_none, List.nil_append, D6Joint_Deserialize_written]
    rfl

end Flax
